import Mathlib

/-!
Verification of the FAT32 / partition-table image tools of the webbOS
repository (`src/tools/create-gpt-image.py`, `src/tools/create-fat32-image.py`,
`src/tools/copy-to-image.py`, `src/update-image.py`) against their
natural-language specification.

The Python tools manipulate a mutable in-memory byte buffer (a `bytearray`)
addressed by absolute byte offsets.  We model such a buffer as a function
`Nat → Nat` (byte address to byte value); a Python slice assignment
`image[a:b] = bytes` of matching length becomes `writeRegion`.  Fixed-size
records built field-by-field by the Python code are modelled as `List Nat`.
All multi-byte fields are little-endian, exactly as `struct.pack`/`unpack`
with `<H`/`<I`/`<Q` formats.
-/

set_option maxRecDepth 100000
set_option maxHeartbeats 4000000

namespace WebbOS

/-- Byte-addressed image buffer: address to byte value. -/
abbrev Image := Nat → Nat

/-- `image[off : off+len] = content` with replacement semantics:
reading inside the window yields `content (a - off)`. -/
def writeRegion (img : Image) (off len : Nat) (content : Nat → Nat) : Image :=
  fun a => if off ≤ a ∧ a < off + len then content (a - off) else img a

/-- View a byte list as content for `writeRegion` (out-of-range bytes read 0,
matching the zero-initialised `bytearray`s of the tools). -/
def listContent (l : List Nat) : Nat → Nat := fun k => l.getD k 0

/-- `image[off : off + l.length] = l`. -/
def writeList (img : Image) (off : Nat) (l : List Nat) : Image :=
  writeRegion img off l.length (listContent l)

/-- `struct.unpack('<H', img[off:off+2])`. -/
def readLE16 (img : Image) (off : Nat) : Nat := img off + 256 * img (off + 1)

/-- `struct.unpack('<I', img[off:off+4])`. -/
def readLE32 (img : Image) (off : Nat) : Nat :=
  img off + 256 * img (off + 1) + 65536 * img (off + 2) + 16777216 * img (off + 3)

/-- `struct.unpack('<H', bytes(l)[off:off+2])`. -/
def readLE16L (l : List Nat) (off : Nat) : Nat := readLE16 (listContent l) off

/-- `struct.unpack('<I', bytes(l)[off:off+4])`. -/
def readLE32L (l : List Nat) (off : Nat) : Nat := readLE32 (listContent l) off

/-- `struct.pack('<H', v)` (the Python call requires `v < 2^16`; theorems that
depend on the value carry that bound as a hypothesis). -/
def le2 (v : Nat) : List Nat := [v % 256, v / 256 % 256]

/-- `struct.pack('<I', v)` (the Python call requires `v < 2^32`). -/
def le4 (v : Nat) : List Nat :=
  [v % 256, v / 256 % 256, v / 65536 % 256, v / 16777216 % 256]

/-- `struct.pack('<Q', v)`. -/
def le8 (v : Nat) : List Nat := le4 (v % 4294967296) ++ le4 (v / 4294967296)

/-- Python `bytearray` slice assignment `l[lo:hi] = repl`, including its
resizing behaviour when `repl.length ≠ hi - lo`. -/
def setSlice (l : List Nat) (lo hi : Nat) (repl : List Nat) : List Nat :=
  l.take lo ++ repl ++ l.drop hi

/-- A sequence of Python slice assignments `(lo, hi, repl)` applied in order
to an initial buffer. -/
def assignAll (init : List Nat) (xs : List (Nat × Nat × List Nat)) : List Nat :=
  xs.foldl (fun l t => setSlice l t.1 t.2.1 t.2.2) init

/-! ### CRC32 (`binascii.crc32`, as wrapped by `crc32` in create-gpt-image.py)

Standard reflected CRC-32 with polynomial 0xEDB88320, initial value
0xFFFFFFFF and final xor 0xFFFFFFFF. -/

/-- One bit step of the reflected CRC-32. -/
def crc32Round (c : Nat) : Nat :=
  if c % 2 = 1 then (c / 2) ^^^ 0xEDB88320 else c / 2

/-- Fold one input byte into the running CRC state (8 bit steps). -/
def crc32Byte (c b : Nat) : Nat :=
  crc32Round (crc32Round (crc32Round (crc32Round
    (crc32Round (crc32Round (crc32Round (crc32Round (c ^^^ (b % 256)))))))))

/-- `binascii.crc32(data) & 0xffffffff`. -/
def crc32 (bs : List Nat) : Nat :=
  (bs.foldl crc32Byte 0xFFFFFFFF) ^^^ 0xFFFFFFFF

/-- The same left fold as `crc32`, written with a bare `List.rec` whose step
forces the running state to a numeral (via the `match`), so that kernel
reduction of concrete instances runs in bounded stack space.
`crcListF_eq_foldl` below proves it equal to the textbook fold. -/
def crcListF : List Nat → Nat → Nat := fun l =>
  List.rec (motive := fun _ => Nat → Nat)
    (fun st => st)
    (fun b _ ih st =>
      match crc32Byte st b with
      | 0 => ih 0
      | m + 1 => ih (m + 1))
    l

/-- Folding `n` zero bytes into the CRC state. -/
def zrun (n st : Nat) : Nat := crcListF (List.replicate n 0) st

/-! ### GPT builder (`create_gpt_efi_image` in src/tools/create-gpt-image.py)

Only the parts relevant to the GPT header CRC are modelled: the header
(bytes 0–92 of LBA 1; the CRCs are computed over exactly those bytes) and
the partition entry array (sectors 2–33, 128 entries of 128 bytes).  The
two random GUIDs produced by `uuid.uuid4()` are taken as parameters. -/

namespace Gpt

def sectorSize : Nat := 512
def imageSize : Nat := 64 * 1024 * 1024
def totalSectors : Nat := imageSize / sectorSize
def firstUsableLba : Nat := 34
def lastUsableLba : Nat := totalSectors - 34
def espStart : Nat := 2048
def espEnd : Nat := lastUsableLba - 1

/-- The GPT header as first assembled (lines 89–103): CRC field (offset 16)
and entry-array CRC field (offset 88) still zero. -/
def gptHeaderInitial (diskGuid : List Nat) : List Nat :=
  [0x45, 0x46, 0x49, 0x20, 0x50, 0x41, 0x52, 0x54] ++   -- b'EFI PART'
  le4 0x00010000 ++                                      -- revision
  le4 92 ++                                              -- header size
  le4 0 ++                                               -- CRC32 (later)
  le4 0 ++                                               -- reserved
  le8 1 ++                                               -- current LBA
  le8 (totalSectors - 1) ++                              -- backup LBA
  le8 firstUsableLba ++
  le8 lastUsableLba ++
  diskGuid ++                                            -- uuid4().bytes_le
  le8 2 ++                                               -- entry array LBA
  le4 128 ++                                             -- number of entries
  le4 128 ++                                             -- entry size
  le4 0                                                  -- entry array CRC32

/-- First header CRC (line 106), taken with both CRC fields zero. -/
def headerCrc1 (g : List Nat) : Nat := crc32 (gptHeaderInitial g)

/-- Header after line 107 embedded the first CRC at offset 16. -/
def gptHeaderAfterFirstCrc (g : List Nat) : List Nat :=
  setSlice (gptHeaderInitial g) 16 20 (le4 (headerCrc1 g))

/-- ESP type GUID `C12A7328-F81F-11D2-BA4B-00A0C93EC93B` in its on-disk
byte order (line 116). -/
def espTypeGuid : List Nat :=
  [0x28, 0x73, 0x2A, 0xC1, 0x1F, 0xF8, 0xD2, 0x11,
   0xBA, 0x4B, 0x00, 0xA0, 0xC9, 0x3E, 0xC9, 0x3B]

/-- `"EFI System Partition".encode('utf-16-le')`. -/
def espUtf16Name : List Nat :=
  [69,0, 70,0, 73,0, 32,0, 83,0, 121,0, 115,0, 116,0, 101,0, 109,0,
   32,0, 80,0, 97,0, 114,0, 116,0, 105,0, 116,0, 105,0, 111,0, 110,0]

/-- The 128-byte ESP partition entry (lines 113–128); `uniq` is the random
unique-partition GUID. -/
def espEntry (uniq : List Nat) : List Nat :=
  espTypeGuid ++ uniq ++ le8 espStart ++ le8 espEnd ++ le8 0 ++
  espUtf16Name ++ List.replicate 32 0

/-- The partition entry array bytes `image[1024 : 1024 + 128*128]` at the
time line 134 computes its CRC: entry 0 written, the rest still zero. -/
def entryArray (uniq : List Nat) : List Nat :=
  espEntry uniq ++ List.replicate (128 * 128 - 128) 0

/-- CRC32 of the partition entry array (line 134). -/
def partitionCrc (uniq : List Nat) : Nat := crc32 (entryArray uniq)

/-- Header after line 135 embedded the entry-array CRC at offset 88.
Note the first header CRC is still sitting at offset 16. -/
def gptHeaderWithPartCrc (g uniq : List Nat) : List Nat :=
  setSlice (gptHeaderAfterFirstCrc g) 88 92 (le4 (partitionCrc uniq))

/-- The "recalculated" header CRC of line 137: computed over bytes 0–92 of a
header that still carries the first-pass CRC at offset 16. -/
def headerCrc2 (g uniq : List Nat) : Nat := crc32 (gptHeaderWithPartCrc g uniq)

/-- The header as finally stored at LBA 1 (lines 138–139). -/
def gptHeaderFinal (g uniq : List Nat) : List Nat :=
  setSlice (gptHeaderWithPartCrc g uniq) 16 20 (le4 (headerCrc2 g uniq))

/-- An all-zero GUID, a possible output of `uuid.uuid4()`-style inputs used
to instantiate the builder concretely. -/
def zeroGuid : List Nat := List.replicate 16 0

end Gpt

/-! ### Python string helpers

`bytes.decode('ascii', errors='ignore')` drops bytes ≥ 128; `str.strip()`
removes leading/trailing whitespace; `str.upper()` uppercases.  Strings are
modelled as byte lists. -/

/-- Bytes Python's `str.strip()` removes (whitespace code points that can
arise from `latin-1`/`ascii` decoded bytes). -/
def isPySpace (b : Nat) : Bool :=
  b = 32 || (9 ≤ b && b ≤ 13) || (28 ≤ b && b ≤ 31) || b = 0x85 || b = 0xA0

/-- `bytes.decode('ascii', errors='ignore')`. -/
def asciiIgnore (l : List Nat) : List Nat := l.filter (· < 128)

/-- `str.strip()`. -/
def pyStrip (l : List Nat) : List Nat :=
  ((l.dropWhile isPySpace).reverse.dropWhile isPySpace).reverse

/-- `str.upper()` on one character. -/
def pyUpperByte (b : Nat) : Nat := if 97 ≤ b ∧ b ≤ 122 then b - 32 else b

/-- `str.upper()`. -/
def pyUpper (l : List Nat) : List Nat := l.map pyUpperByte

/-- `name[:8].ljust(8, ' ')`. -/
def padName (n : List Nat) : List Nat :=
  n.take 8 ++ List.replicate (8 - (n.take 8).length) 32

/-- `ext[:3].ljust(3, ' ')`. -/
def padExt (e : List Nat) : List Nat :=
  e.take 3 ++ List.replicate (3 - (e.take 3).length) 32

/-- `name.rsplit('.', 1)` when `'.' ∈ name`, else `(name, '')` — the filename
split of both copy-to-image.py (lines 87–90) and update-image.py
(lines 199–205). -/
def rsplitDot (l : List Nat) : List Nat × List Nat :=
  if 46 ∈ l then
    let cut := l.length - 1 - l.reverse.findIdx (· = 46)
    (l.take cut, l.drop (cut + 1))
  else (l, [])

/-! ### Copy tool (`fat32_copy_file` in src/tools/copy-to-image.py)

The function reads the whole image into a `bytearray`, parses the MBR and
the FAT32 boot sector of the ESP, navigates the destination path, picks a
free directory slot, allocates free clusters first-fit, writes the data and
both FAT copies, writes the new directory entry, and writes the buffer
back.  All geometry values below are read from the original image bytes,
matching the Python locals parsed once up front. -/

namespace CopyTool

/-- Lines 27–32: partition start from the MBR when the type byte is 0xEF,
else the GPT default 2048. -/
def espStart (img : Image) : Nat :=
  if img 450 = 0xEF then readLE32 img 454 else 2048

def bootOffset (img : Image) : Nat := espStart img * 512

def bytesPerSector (img : Image) : Nat := readLE16 img (bootOffset img + 11)
def sectorsPerCluster (img : Image) : Nat := img (bootOffset img + 13)
def reservedSectors (img : Image) : Nat := readLE16 img (bootOffset img + 14)
def numFats (img : Image) : Nat := img (bootOffset img + 16)
def sectorsPerFat (img : Image) : Nat := readLE32 img (bootOffset img + 36)
def rootCluster (img : Image) : Nat := readLE32 img (bootOffset img + 44)

def fat1Offset (img : Image) : Nat :=
  bootOffset img + reservedSectors img * bytesPerSector img

def fatSizeBytes (img : Image) : Nat := sectorsPerFat img * bytesPerSector img

def dataOffset (img : Image) : Nat := fat1Offset img + numFats img * fatSizeBytes img

def clusterSize (img : Image) : Nat := sectorsPerCluster img * bytesPerSector img

/-- Byte offset of the single cluster backing a directory (lines 55, 96). -/
def dirOffset (img : Image) (cluster : Nat) : Nat :=
  dataOffset img + (cluster - 2) * clusterSize img

/-- One directory-slot step of the navigation scan (lines 57–73): stop at an
EndOfDirectory slot, skip deleted/LFN slots, match a subdirectory name. -/
def findSubdirAux (img : Image) (dOff : Nat) (part : List Nat) : Nat → Nat → Option Nat
  | _, 0 => none
  | i, left + 1 =>
    let e := dOff + i * 32
    if img e = 0 then none
    else if img e = 0xE5 ∨ img (e + 11) = 0x0F then findSubdirAux img dOff part (i + 1) left
    else
      let name := pyStrip (asciiIgnore ((List.range 8).map (fun k => img (e + k))))
      if name = pyUpper part ∧ img (e + 11) &&& 0x10 ≠ 0 then
        some (readLE16 img (e + 26) ||| (readLE16 img (e + 20)) <<< 16)
      else findSubdirAux img dOff part (i + 1) left

/-- Scan the `clusterSize/32` slots of one directory cluster for `part`. -/
def findSubdir (img : Image) (cluster : Nat) (part : List Nat) : Option Nat :=
  findSubdirAux img (dirOffset img cluster) part 0 (clusterSize img / 32)

/-- Lines 53–77: walk the intermediate path components from the root. -/
def navigate (img : Image) : List (List Nat) → Nat → Option Nat
  | [], c => some c
  | p :: rest, c =>
    match findSubdir img c p with
    | none => none
    | some c' => navigate img rest c'

/-- Lines 99–105: first slot of the final directory cluster whose first byte
is 0x00 or 0xE5. -/
def findFreeSlotAux (img : Image) (dOff : Nat) : Nat → Nat → Option Nat
  | _, 0 => none
  | i, left + 1 =>
    if img (dOff + i * 32) = 0 ∨ img (dOff + i * 32) = 0xE5 then some i
    else findFreeSlotAux img dOff (i + 1) left

def findFreeSlot (img : Image) (cluster : Nat) : Option Nat :=
  findFreeSlotAux img (dirOffset img cluster) 0 (clusterSize img / 32)

/-- Lines 112–114: `ceil(size / clusterSize)`, but at least 1. -/
def clustersNeeded (size cs : Nat) : Nat :=
  let n := (size + cs - 1) / cs
  if n = 0 then 1 else n

/-- Lines 119–124: first-fit scan of the FAT from cluster 2, collecting
clusters whose masked entry is 0, stopping once `needed` are found.
`left` is the remaining number of loop iterations. -/
def scanFreeAux (entryAt : Nat → Nat) (needed : Nat) : Nat → Nat → List Nat
  | _, 0 => []
  | i, left + 1 =>
    if entryAt i = 0 then
      if needed ≤ 1 then [i]
      else i :: scanFreeAux entryAt (needed - 1) (i + 1) left
    else scanFreeAux entryAt needed (i + 1) left

/-- Number of FAT entries (line 119's range bound). -/
def fatEntriesLimit (img : Image) : Nat := fatSizeBytes img / 4

/-- Masked FAT entry `i` as read from the image's first FAT copy (line 120). -/
def fatEntryAt (img : Image) (i : Nat) : Nat :=
  readLE32 img (fat1Offset img + 4 * i) &&& 0x0FFFFFFF

def freeClusters (img : Image) (needed : Nat) : List Nat :=
  scanFreeAux (fatEntryAt img) needed 2 (fatEntriesLimit img - 2)

/-- Lines 134–149: write the file data cluster by cluster and link the
chain in the in-memory FAT buffer (`fatF`, a copy of FAT 1's bytes).
Returns the mutated image and FAT buffer. -/
def writeClustersAux (dataOff cs : Nat) (data : List Nat) :
    List Nat → Nat → Image → (Nat → Nat) → Image × (Nat → Nat)
  | [], _, imgA, fatF => (imgA, fatF)
  | c :: rest, i, imgA, fatF =>
    let cOff := dataOff + (c - 2) * cs
    let toWrite := min (data.length - i * cs) cs
    let imgA' := writeRegion imgA cOff toWrite (fun k => data.getD (i * cs + k) 0)
    let link := match rest with
      | [] => 0x0FFFFFFF
      | c' :: _ => c' &&& 0x0FFFFFFF
    let fatF' := writeRegion fatF (c * 4) 4 (listContent (le4 link))
    writeClustersAux dataOff cs data rest (i + 1) imgA' fatF'

/-- Data write plus FAT-buffer linking, starting from a fresh copy of the
on-image FAT bytes (line 116). -/
def copyWritten (img : Image) (data : List Nat) : Image × (Nat → Nat) :=
  writeClustersAux (dataOffset img) (clusterSize img) data
    (freeClusters img (clustersNeeded data.length (clusterSize img))) 0
    img (fun k => img (fat1Offset img + k))

/-- Lines 151–154: write the FAT buffer back over both FAT copies. -/
def copyAfterFats (img : Image) (data : List Nat) : Image :=
  let r := copyWritten img data
  writeRegion (writeRegion r.1 (fat1Offset img) (fatSizeBytes img) r.2)
    (fat1Offset img + fatSizeBytes img) (fatSizeBytes img) r.2

/-- Lines 156–171: the new 32-byte directory entry.  The Python code sets
bytes 0–32 field by field on a zeroed `bytearray`; bytes 12–13 stay 0. -/
def copyDirEntry (name ext : List Nat) (tv dv first size : Nat) : List Nat :=
  name ++ ext ++ [0x20] ++ [0, 0] ++ le2 tv ++ le2 dv ++ le2 dv ++
  le2 (first >>> 16) ++ le2 tv ++ le2 dv ++ le2 (first &&& 0xFFFF) ++ le4 size

inductive CopyError
  | dirNotFound
  | noFreeDirEntries
  | notEnoughClusters
deriving DecidableEq

/-- `fat32_copy_file(image, src, dest)` (lines 18–180).  `parts` is the
already-split destination path, `tv`/`dv` the FAT-encoded current time and
date from `get_fat_time()`. -/
def fat32CopyFile (img : Image) (data : List Nat) (parts : List (List Nat))
    (tv dv : Nat) : Except CopyError Image :=
  match navigate img parts.dropLast (rootCluster img) with
  | none => .error .dirNotFound
  | some cc =>
    match findFreeSlot img cc with
    | none => .error .noFreeDirEntries
    | some idx =>
      let needed := clustersNeeded data.length (clusterSize img)
      let free := freeClusters img needed
      if free.length < needed then .error .notEnoughClusters
      else
        let fileName := pyUpper (parts.getLastD [])
        let ne := rsplitDot fileName
        let entry := copyDirEntry (padName ne.1) (padExt ne.2) tv dv (free.headD 0) data.length
        .ok (writeList (copyAfterFats img data) (dirOffset img cc + idx * 32) entry)

/-- The image produced by a successful run (used to state theorems about
`fat32CopyFile`'s output without binding it existentially). -/
def copyOut (img : Image) (data : List Nat) (parts : List (List Nat))
    (tv dv : Nat) : Image :=
  match fat32CopyFile img data parts tv dv with
  | .ok o => o
  | .error _ => img

/-- The cluster chain `fat32_copy_file` allocates for a payload: the
first-fit free clusters for `ceil`-with-minimum-1 many clusters. -/
def allocatedChain (img : Image) (data : List Nat) : List Nat :=
  freeClusters img (clustersNeeded data.length (clusterSize img))

end CopyTool

/-! ### Update tool (src/update-image.py)

Reads the FAT32 boot sector at absolute offset 0 (no partition offset is
ever applied), walks directories through the FAT, and overwrites a file's
existing cluster chain in place. -/

namespace UpdTool

/-- The parsed BIOS Parameter Block (the dict returned by
`parse_fat32_bpb`, lines 32–40). -/
structure Bpb where
  bytesPerSector : Nat
  sectorsPerCluster : Nat
  reservedSectors : Nat
  numFats : Nat
  totalSectors : Nat
  sectorsPerFat : Nat
  rootCluster : Nat
deriving DecidableEq

/-- `parse_fat32_bpb` (lines 14–40): the boot sector is read from absolute
offset 0; `ValueError` on a bad 0x55AA signature. -/
def parseFat32Bpb (img : Image) : Except String Bpb :=
  if img 510 = 0x55 ∧ img 511 = 0xAA then
    .ok { bytesPerSector := readLE16 img 11
          sectorsPerCluster := img 13
          reservedSectors := readLE16 img 14
          numFats := img 16
          totalSectors := readLE32 img 32
          sectorsPerFat := readLE32 img 36
          rootCluster := readLE32 img 44 }
  else .error "Invalid boot sector signature"

/-- `cluster_to_offset` (lines 42–46): absolute byte offset of a cluster,
with no partition start term. -/
def clusterToOffset (bpb : Bpb) (cluster : Nat) : Nat :=
  ((bpb.reservedSectors + bpb.numFats * bpb.sectorsPerFat) +
    (cluster - 2) * bpb.sectorsPerCluster) * bpb.bytesPerSector

def fatSizeBytes (bpb : Bpb) : Nat := bpb.sectorsPerFat * bpb.bytesPerSector

def clusterSize (bpb : Bpb) : Nat := bpb.sectorsPerCluster * bpb.bytesPerSector

/-- `read_fat` (lines 55–66): the masked 4-byte entries of FAT copy 1,
read from absolute offset `reserved_sectors * bytes_per_sector`. -/
def readFat (img : Image) (bpb : Bpb) : List Nat :=
  (List.range (fatSizeBytes bpb / 4)).map
    (fun i => readLE32 img (bpb.reservedSectors * bpb.bytesPerSector + 4 * i) &&& 0x0FFFFFFF)

/-- `read_cluster` (lines 48–53). -/
def readCluster (img : Image) (bpb : Bpb) (cluster : Nat) : List Nat :=
  (List.range (clusterSize bpb)).map (fun k => img (clusterToOffset bpb cluster + k))

/-- The loop body of `get_cluster_chain` (lines 68–82), with explicit fuel:
`none` means the `while` loop did not finish within `fuel` iterations. -/
def getClusterChainAux (fat : List Nat) : Nat → List Nat → Nat → Option (List Nat)
  | _, _, 0 => none
  | current, chain, fuel + 1 =>
    if current < fat.length then
      let next := fat.getD current 0
      if 0x0FFFFFF8 ≤ next then some chain
      else if next = 0 then some chain
      else getClusterChainAux fat next (chain ++ [next]) fuel
    else some chain

/-- `get_cluster_chain(fat, start_cluster)` with fuel. -/
def getClusterChain (fat : List Nat) (start : Nat) (fuel : Nat) : Option (List Nat) :=
  getClusterChainAux fat start [start] fuel

/-- A decoded `Regular` 8.3 entry (the dict of lines 108–113). -/
structure FileRecord where
  name : List Nat
  attr : Nat
  startCluster : Nat
  size : Nat
deriving DecidableEq

/-- The classification returned by `parse_directory_entry` (lines 84–113). -/
inductive DirResult
  | endOfDir
  | deleted
  | lfn
  | volLabel
  | file (r : FileRecord)
deriving DecidableEq

/-- `parse_directory_entry(data, offset)` (lines 84–113). -/
def parseDirectoryEntry (data : List Nat) (off : Nat) : DirResult :=
  if data.getD off 0 = 0 then .endOfDir
  else if data.getD off 0 = 0xE5 then .deleted
  else if data.getD (off + 11) 0 = 0x0F then .lfn
  else if data.getD (off + 11) 0 &&& 0x08 ≠ 0 then .volLabel
  else .file
    { name := pyStrip ((List.range 11).map (fun k => data.getD (off + k) 0))
      attr := data.getD (off + 11) 0
      startCluster := readLE16L data (off + 26) ||| (readLE16L data (off + 20)) <<< 16
      size := readLE32L data (off + 28) }

/-- The inner record loop of `list_directory` (lines 123–128): scan one
cluster's records, stopping at the first EndOfDirectory record *of that
cluster* (the Python `break` leaves only the inner loop). -/
def scanDirClusterAux (data : List Nat) : Nat → Nat → List FileRecord
  | _, 0 => []
  | i, left + 1 =>
    match parseDirectoryEntry data i with
    | .endOfDir => []
    | .file r => r :: scanDirClusterAux data (i + 32) left
    | _ => scanDirClusterAux data (i + 32) left

def scanDirCluster (data : List Nat) : List FileRecord :=
  scanDirClusterAux data 0 ((data.length + 31) / 32)

/-- `list_directory` (lines 115–130): every cluster of the chain is scanned,
even clusters after one that contained an EndOfDirectory record. -/
def listDirectory (img : Image) (bpb : Bpb) (start : Nat) (fuel : Nat) :
    Option (List FileRecord) :=
  match getClusterChain (readFat img bpb) start fuel with
  | none => none
  | some clusters =>
    some (clusters.foldl (fun acc c => acc ++ scanDirCluster (readCluster img bpb c)) [])

/-- The cluster-overwrite loop of `update_file` (lines 157–172): each chunk
is zero-padded to a full cluster; the loop breaks once `end ≥ len(data)`. -/
def updateClustersAux (bpb : Bpb) (data : List Nat) : List Nat → Nat → Image → Image
  | [], _, img => img
  | c :: rest, i, img =>
    let cs := clusterSize bpb
    let start := i * cs
    let endd := min (start + cs) data.length
    let img' := writeRegion img (clusterToOffset bpb c)  cs
      (fun k => if k < endd - start then data.getD (start + k) 0 else 0)
    if data.length ≤ endd then img' else updateClustersAux bpb data rest (i + 1) img'

/-- `update_file(f, bpb, file_entry, new_data)` (lines 150–177): overwrite
the chain of `startCluster` in place.  The function has no failure path of
its own (`none` only reflects fuel exhaustion of the chain walk). -/
def updateFile (img : Image) (bpb : Bpb) (startCluster : Nat) (data : List Nat)
    (fuel : Nat) : Option Image :=
  match getClusterChain (readFat img bpb) startCluster fuel with
  | none => none
  | some clusters => some (updateClustersAux bpb data clusters 0 img)

end UpdTool

/-! ### MBR volume builder (`create_efi_bootable_image` in
src/tools/create-fat32-image.py)

The builder constructs a 64 MiB image in memory.  Python `bytearray` slice
assignments are modelled with `setSlice` (lists) and `writeRegion`
(the image).  Note `boot[3:11] = b'EFI FAT32'` assigns 9 bytes to an 8-byte
slice, growing the boot sector to 513 bytes and shifting its tail — the
model keeps that faithfully via `setSlice`; writing the grown 513-byte
sector into the image is modelled as a 513-byte `writeRegion` (in Python it
inserts one byte, but everything at and beyond the insertion point is zero
at that moment, so the resulting bytes agree). -/

namespace Builder

/-- First-pass FAT sizing shared by create-fat32-image.py (lines 184–186)
and create-gpt-image.py (lines 44–48): estimate the cluster count without
FAT space, then size the FAT from it. -/
def sizingSpf (partSectors resSectors spc bps : Nat) : Nat :=
  ((partSectors - resSectors) / spc * 4 + bps - 1) / bps + 1

/-- Second pass (create-fat32-image.py lines 189–190, create-gpt-image.py
lines 50–51): re-derive the cluster count with `nf` FAT copies reserved. -/
def sizingClusters (partSectors resSectors spc bps nf : Nat) : Nat :=
  (partSectors - resSectors - nf * sizingSpf partSectors resSectors spc bps) / spc

def bytesPerSector : Nat := 512
def imageSize : Nat := 64 * 1024 * 1024
def totalSectors : Nat := imageSize / bytesPerSector
def partitionStart : Nat := 2048
def partitionSectors : Nat := totalSectors - partitionStart
def sectorsPerCluster : Nat := 8
def reservedSectors : Nat := 32
def numFats : Nat := 2
def sectorsPerFat : Nat :=
  sizingSpf partitionSectors reservedSectors sectorsPerCluster bytesPerSector
def numClusters : Nat :=
  sizingClusters partitionSectors reservedSectors sectorsPerCluster bytesPerSector numFats

/-- `create_lba_chs` (lines 10–26). -/
def createLbaChs (lba : Nat) : List Nat :=
  let heads := 255
  let sectorsPerTrack := 63
  let cylinder := lba / (heads * sectorsPerTrack)
  let head := (lba / sectorsPerTrack) % heads
  let sector := lba % sectorsPerTrack + 1
  let cyl := if 1023 < cylinder then 1023 else cylinder
  [head, ((cyl >>> 2) &&& 0xC0) ||| (sector &&& 0x3F), cyl &&& 0xFF]

/-- `create_mbr_partition_table` (lines 28–45). -/
def mbrPartitionEntry : List Nat :=
  assignAll (List.replicate 16 0)
    [(0, 1, [0x80]),
     (1, 4, createLbaChs 2048),
     (4, 5, [0xEF]),
     (5, 8, createLbaChs 0xFFFFFFFF),
     (8, 12, le4 2048)]

/-- The MBR assembled at lines 208–217 (partition size patched in at 214). -/
def mbrBytes : List Nat :=
  assignAll (List.replicate 512 0)
    [(0, 446, List.replicate 446 0),
     (446, 462, setSlice mbrPartitionEntry 12 16 (le4 partitionSectors)),
     (510, 512, [0x55, 0xAA])]

/-- `create_fat32_boot_sector` (lines 47–115).  The 9-byte OEM string grows
the sector to 513 bytes. -/
def createFat32BootSector (spc resSec nf spf ts rootC volStart : Nat) : List Nat :=
  assignAll (List.replicate 512 0)
    [(0, 3, [0xEB, 0x58, 0x90]),
     (3, 11, [0x45, 0x46, 0x49, 0x20, 0x46, 0x41, 0x54, 0x33, 0x32]),  -- b'EFI FAT32'
     (11, 13, le2 512),
     (13, 14, [spc]),
     (14, 16, le2 resSec),
     (16, 17, [nf]),
     (17, 19, le2 0),
     (19, 21, le2 0),
     (21, 22, [0xF8]),
     (22, 24, le2 0),
     (24, 26, le2 32),
     (26, 28, le2 64),
     (28, 32, le4 volStart),
     (32, 36, le4 ts),
     (36, 40, le4 spf),
     (40, 42, le2 0),
     (42, 44, le2 0),
     (44, 48, le4 rootC),
     (48, 50, le2 1),
     (50, 52, le2 6),
     (52, 64, List.replicate 12 0),
     (64, 65, [0x00]),
     (65, 66, [0x00]),
     (66, 67, [0x29]),
     (67, 71, le4 0x12345678),
     (71, 82, [0x57, 0x45, 0x42, 0x42, 0x4F, 0x53, 0x20, 0x20, 0x20, 0x20, 0x20]),
     (82, 90, [0x46, 0x41, 0x54, 0x33, 0x32, 0x20, 0x20, 0x20]),
     (90, 510, List.replicate 420 0),
     (510, 512, [0x55, 0xAA])]

/-- `create_fsinfo` (lines 117–134). -/
def fsinfoBytes : List Nat :=
  assignAll (List.replicate 512 0)
    [(0, 4, le4 0x41615252),
     (4, 484, List.replicate 480 0),
     (484, 488, le4 0x61417272),
     (488, 492, le4 0xFFFFFFFF),
     (492, 496, le4 0xFFFFFFFF),
     (496, 508, List.replicate 12 0),
     (508, 512, le4 0xAA550000)]

/-- `create_directory_entry` (lines 136–162).  The Python code fills a
zeroed 32-byte `bytearray` field by field at consecutive offsets covering
bytes 0–32, so the record is the concatenation of its fields (bytes 12–13
are left zero). -/
def createDirectoryEntry (name ext : List Nat) (attr cluster size : Nat) : List Nat :=
  padName (pyUpper name) ++ padExt (pyUpper ext) ++ [attr] ++ [0, 0] ++
  le2 0 ++ le2 0 ++ le2 0 ++ le2 (cluster >>> 16) ++ le2 0 ++ le2 0 ++
  le2 (cluster &&& 0xFFFF) ++ le4 size

def fatSizeBytes : Nat := sectorsPerFat * bytesPerSector
def partitionOffset : Nat := partitionStart * bytesPerSector
def backupOffset : Nat := partitionOffset + 6 * bytesPerSector
def fsinfoOffset : Nat := partitionOffset + bytesPerSector
def fat1Offset : Nat := partitionOffset + reservedSectors * bytesPerSector
def fat2Offset : Nat := fat1Offset + fatSizeBytes
def dataOffset : Nat := fat2Offset + fatSizeBytes
def rootDirOffset : Nat := dataOffset
def efiDirOffset : Nat := dataOffset + (3 - 2) * sectorsPerCluster * bytesPerSector
def bootDirOffset : Nat := dataOffset + (4 - 2) * sectorsPerCluster * bytesPerSector

/-- The FAT buffer after lines 245–251 (media marker, reserved entry, root
directory EOC). -/
def fatA : List Nat :=
  assignAll (List.replicate fatSizeBytes 0)
    [(0, 4, le4 0x0FFFFFF8),
     (4, 8, le4 0xFFFFFFFF),
     (8, 12, le4 0x0FFFFFFF)]

/-- After line 267 marked cluster 3 (EFI directory) end-of-chain. -/
def fatB : List Nat := setSlice fatA 12 16 (le4 0x0FFFFFFF)

/-- After line 284 marked cluster 4 (BOOT directory) end-of-chain. -/
def fatC : List Nat := setSlice fatB 16 20 (le4 0x0FFFFFFF)

def bootSectorBytes : List Nat :=
  createFat32BootSector sectorsPerCluster reservedSectors numFats
    sectorsPerFat partitionSectors 2 partitionStart

/-! The image built by `create_efi_bootable_image` (lines 164–303), one
definition per buffer write the Python code performs, in source order. -/

/-- Line 219: the MBR into sector 0. -/
def bimg1 : Image := writeRegion (fun _ => 0) 0 512 (listContent mbrBytes)
/-- Line 229: boot sector at the partition start (513 grown bytes). -/
def bimg2 : Image := writeRegion bimg1 partitionOffset 513 (listContent bootSectorBytes)
/-- Line 233: backup boot sector at relative sector 6. -/
def bimg3 : Image := writeRegion bimg2 backupOffset 513 (listContent bootSectorBytes)
/-- Line 238: FSInfo at relative sector 1. -/
def bimg4 : Image := writeRegion bimg3 fsinfoOffset 512 (listContent fsinfoBytes)
/-- Line 253: FAT copy 1. -/
def bimg5 : Image := writeRegion bimg4 fat1Offset fatSizeBytes (listContent fatA)
/-- Line 254: FAT copy 2. -/
def bimg6 : Image := writeRegion bimg5 fat2Offset fatSizeBytes (listContent fatA)
/-- Line 264: the `EFI` entry into the root directory. -/
def bimg7 : Image :=
  writeRegion bimg6 rootDirOffset 32 (listContent (createDirectoryEntry [69, 70, 73] [] 0x10 3 0))
/-- Line 268: first 16 FAT bytes (cluster 3 marked EOC) into FAT copy 1. -/
def bimg8 : Image := writeRegion bimg7 fat1Offset 16 (listContent (fatB.take 16))
/-- Line 269: the same 16 bytes into FAT copy 2. -/
def bimg9 : Image := writeRegion bimg8 fat2Offset 16 (listContent (fatB.take 16))
/-- Lines 279–281: `.`, `..` and `BOOT` entries of the EFI directory. -/
def bimgA : Image :=
  writeRegion bimg9 efiDirOffset 32 (listContent (createDirectoryEntry [46] [] 0x10 2 0))
def bimgB : Image :=
  writeRegion bimgA (efiDirOffset + 32) 32 (listContent (createDirectoryEntry [46, 46] [] 0x10 0 0))
def bimgC : Image :=
  writeRegion bimgB (efiDirOffset + 64) 32 (listContent (createDirectoryEntry [66, 79, 79, 84] [] 0x10 4 0))
/-- Line 285: first 20 FAT bytes (cluster 4 marked EOC) into FAT copy 1. -/
def bimgD : Image := writeRegion bimgC fat1Offset 20 (listContent (fatC.take 20))
/-- Line 286: the same 20 bytes into FAT copy 2. -/
def bimgE : Image := writeRegion bimgD fat2Offset 20 (listContent (fatC.take 20))
/-- Lines 295–296: `.` and `..` entries of the BOOT directory. -/
def bimgF : Image :=
  writeRegion bimgE bootDirOffset 32 (listContent (createDirectoryEntry [46] [] 0x10 4 0))
/-- The finished image. -/
def builderImage : Image :=
  writeRegion bimgF (bootDirOffset + 32) 32 (listContent (createDirectoryEntry [46, 46] [] 0x10 3 0))

end Builder

/-! ### Further definitions used by the theorems -/

/-- Masked FAT entry of cluster `c` read from an image at FAT offset
`fatOff` — the value `read_fat` (update-image.py lines 61–65) and the
allocator scan (copy-to-image.py line 120) would see there. -/
def readFatEntryImg (img : Image) (fatOff c : Nat) : Nat :=
  readLE32 img (fatOff + c * 4) &&& 0x0FFFFFFF

/-- Starting cluster of a decoded `Regular` record, if the record is one. -/
def startClusterOf : UpdTool.DirResult → Option Nat
  | .file r => some r.startCluster
  | _ => none

/-- `k`-fold iteration of the FAT link function `c ↦ fat[c]` from `start` —
the sequence of `current` values of `get_cluster_chain`'s loop. -/
def linkIter (fat : List Nat) (start : Nat) : Nat → Nat
  | 0 => start
  | k + 1 => fat.getD (linkIter fat start k) 0

/-- Does `get_cluster_chain`'s loop keep going from `current = c`?
(in bounds, not EOC, not free). -/
def okStepB (fat : List Nat) (c : Nat) : Bool :=
  decide (c < fat.length) && decide (fat.getD c 0 < 0x0FFFFFF8) && decide (fat.getD c 0 ≠ 0)

/-- Modelled from the spec (§6, update path): the absolute byte offset of a
cluster in an image whose FAT32 volume begins at sector `volStart` — the
partition-aware counterpart of `cluster_to_offset`, used to compare the
update tool's absolute-offset arithmetic against a volume at nonzero start. -/
def specAbsoluteClusterOffset (volStart : Nat) (bpb : UpdTool.Bpb) (cluster : Nat) : Nat :=
  (volStart + (bpb.reservedSectors + bpb.numFats * bpb.sectorsPerFat) +
    (cluster - 2) * bpb.sectorsPerCluster) * bpb.bytesPerSector

/-! ### Concrete images used to instantiate the theorems

`wimg`: a minimal well-formed image for the copy tool — MBR type byte 0xEF
with the ESP at LBA 1; 512-byte sectors, 1 sector per cluster, 1 reserved
sector, 2 FATs of 1 sector, root directory at cluster 2 (empty); FAT
entries 0/1 reserved, 2 = EOC. -/
def wimg : Image := fun a =>
  if a = 450 then 0xEF else
  if a = 454 then 1 else
  if a = 524 then 2 else
  if a = 525 then 1 else
  if a = 526 then 1 else
  if a = 528 then 2 else
  if a = 548 then 1 else
  if a = 556 then 2 else
  if a = 1024 then 0xF8 else
  if a = 1027 then 0x0F else
  if a = 1035 then 0x0F else
  if 1025 ≤ a ∧ a ≤ 1034 then 0xFF else
  if a = 1536 then 0xF8 else
  if a = 1539 then 0x0F else
  if a = 1547 then 0x0F else
  if 1537 ≤ a ∧ a ≤ 1546 then 0xFF else
  0

/-- A 600-byte payload (needs two 512-byte clusters on `wimg`). -/
def wdata600 : List Nat := List.replicate 600 7

/-- `uimg`: a minimal image for the update tool — the FAT32 volume begins at
byte 0 (as that tool assumes); 1 reserved sector, 2 FATs of 1 sector with
byte-identical copies, root at cluster 2, FAT entry 2 = EOC. -/
def uimg : Image := fun a =>
  if a = 510 then 0x55 else
  if a = 511 then 0xAA else
  if a = 12 then 2 else
  if a = 13 then 1 else
  if a = 14 then 1 else
  if a = 16 then 2 else
  if a = 36 then 1 else
  if a = 44 then 2 else
  if a = 512 then 0xF8 else
  if a = 515 then 0x0F else
  if a = 523 then 0x0F else
  if 513 ≤ a ∧ a ≤ 522 then 0xFF else
  if a = 1024 then 0xF8 else
  if a = 1027 then 0x0F else
  if a = 1035 then 0x0F else
  if 1025 ≤ a ∧ a ≤ 1034 then 0xFF else
  0

/-- The BPB `parse_fat32_bpb` reads from `uimg`. -/
def ubpb : UpdTool.Bpb :=
  { bytesPerSector := 512, sectorsPerCluster := 1, reservedSectors := 1,
    numFats := 2, totalSectors := 0, sectorsPerFat := 1, rootCluster := 2 }

/-- A 700-byte payload (larger than the 512-byte capacity of a one-cluster
chain on `uimg`/`ubpb`). -/
def udata700 : List Nat := List.replicate 700 9

/-- `c4img`: update-tool image whose root directory chain is the two
clusters `[2, 3]`; cluster 2 starts with an EndOfDirectory record (0x00),
while cluster 3 holds a regular record `HIDDEN  TXT` (attr 0x20, start
cluster 5, size 100). -/
def c4img : Image := fun a =>
  if a = 510 then 0x55 else
  if a = 511 then 0xAA else
  if a = 12 then 2 else
  if a = 13 then 1 else
  if a = 14 then 1 else
  if a = 16 then 1 else
  if a = 36 then 1 else
  if a = 44 then 2 else
  if a = 520 then 3 else
  if 524 ≤ a ∧ a ≤ 526 then 0xFF else
  if a = 527 then 0x0F else
  if a = 1536 then 72 else
  if a = 1537 then 73 else
  if a = 1538 then 68 else
  if a = 1539 then 68 else
  if a = 1540 then 69 else
  if a = 1541 then 78 else
  if a = 1542 then 32 else
  if a = 1543 then 32 else
  if a = 1544 then 84 else
  if a = 1545 then 88 else
  if a = 1546 then 84 else
  if a = 1547 then 0x20 else
  if a = 1562 then 5 else
  if a = 1564 then 100 else
  0

/-- The BPB of `c4img` (one FAT copy of one sector). -/
def c4bpb : UpdTool.Bpb :=
  { bytesPerSector := 512, sectorsPerCluster := 1, reservedSectors := 1,
    numFats := 1, totalSectors := 0, sectorsPerFat := 1, rootCluster := 2 }

/-- `c8img`: like `wimg`, but the root directory cluster is completely full
(every one of its 16 records starts with 0x41) and its chain continues into
cluster 3 (`FAT[2] = 3`, `FAT[3] = EOC`), which is empty. -/
def c8img : Image := fun a =>
  if a = 450 then 0xEF else
  if a = 454 then 1 else
  if a = 524 then 2 else
  if a = 525 then 1 else
  if a = 526 then 1 else
  if a = 528 then 2 else
  if a = 548 then 1 else
  if a = 556 then 2 else
  if a = 1032 then 3 else
  if 1036 ≤ a ∧ a ≤ 1038 then 0xFF else
  if a = 1039 then 0x0F else
  if 2048 ≤ a ∧ a < 2560 ∧ (a - 2048) % 32 = 0 then 0x41 else
  0

/-- A small acyclic FAT (`FAT[2] = 3`, `FAT[3] = EOC`) for instantiating
the chain-walk theorems. -/
def c5fat : List Nat := [0, 0, 3, 0x0FFFFFF8]

/-- The image produced by a successful update run (`img` if the chain walk
ran out of fuel), for stating concrete facts about `updateFile`'s output. -/
def updOut (img : Image) (bpb : UpdTool.Bpb) (st : Nat) (data : List Nat) (fuel : Nat) : Image :=
  (UpdTool.updateFile img bpb st data fuel).getD img

/-! ### Lemmas relating the kernel-friendly CRC evaluator to the fold -/

theorem crcListF_cons (b : Nat) (rest : List Nat) (st : Nat) :
    crcListF (b :: rest) st = crcListF rest (crc32Byte st b) := by
  show (match crc32Byte st b with
        | 0 => crcListF rest 0
        | m + 1 => crcListF rest (m + 1)) = crcListF rest (crc32Byte st b)
  cases crc32Byte st b <;> rfl

theorem crcListF_eq_foldl (l : List Nat) : ∀ st, crcListF l st = l.foldl crc32Byte st := by
  induction l with
  | nil => intro st; rfl
  | cons b rest ih => intro st; rw [crcListF_cons, List.foldl_cons, ih]

theorem crc32_eq_listF (bs : List Nat) : crc32 bs = crcListF bs 0xFFFFFFFF ^^^ 0xFFFFFFFF := by
  rw [crc32, crcListF_eq_foldl]

theorem crcListF_append (a b : List Nat) : ∀ st, crcListF (a ++ b) st = crcListF b (crcListF a st) := by
  induction a with
  | nil => intro st; rfl
  | cons x rest ih => intro st; rw [List.cons_append, crcListF_cons, crcListF_cons, ih]

theorem zrun_add (m n st : Nat) : zrun (m + n) st = zrun n (zrun m st) := by
  rw [zrun, zrun, zrun, List.replicate_add, crcListF_append]

/-! ### Generic write/read lemmas -/

theorem writeRegion_hit (img : Image) (off len : Nat) (c : Nat → Nat) (a : Nat)
    (h1 : off ≤ a) (h2 : a < off + len) : writeRegion img off len c a = c (a - off) := by
  unfold writeRegion
  rw [if_pos ⟨h1, h2⟩]

theorem writeRegion_miss (img : Image) (off len : Nat) (c : Nat → Nat) (a : Nat)
    (h : a < off ∨ off + len ≤ a) : writeRegion img off len c a = img a := by
  unfold writeRegion
  rw [if_neg (by omega)]

/-! ### C1: the header CRC stored by the GPT builder -/

open Gpt in
/-- C1: the claim states that the header CRC32 stored at offset 16 equals
the CRC32 over header bytes 0–92 with the CRC field zeroed, taken after the
entry-array CRC was embedded at offset 88.  The builder instead recomputes
the final header CRC (create-gpt-image.py line 137) while the first-pass
CRC is still stored at offset 16, so the stored value differs from the
zero-field CRC — shown here on the builder's header instantiated with
all-zero GUIDs. -/
theorem c1_gpt_header_crc_not_zero_field_crc :
    readLE32L (gptHeaderFinal zeroGuid zeroGuid) 16 ≠
    crc32 (setSlice (gptHeaderFinal zeroGuid zeroGuid) 16 20 (le4 0)) := by
  have hc1 : headerCrc1 zeroGuid = 2941997620 := by
    rw [headerCrc1, crc32_eq_listF]; decide
  have hpc : partitionCrc zeroGuid = 223957201 := by
    rw [partitionCrc, crc32_eq_listF, entryArray, crcListF_append]
    have he : crcListF (espEntry zeroGuid) 0xFFFFFFFF = 3411467071 := by decide
    rw [he]
    have hz : crcListF (List.replicate (128 * 128 - 128) 0) 3411467071 = 4071010094 := by
      show zrun (128 * 128 - 128) 3411467071 = 4071010094
      have e : (128 * 128 - 128 : Nat) =
          2048 + (2048 + (2048 + (2048 + (2048 + (2048 + (2048 + 1920)))))) := by norm_num
      have z1 : zrun 2048 3411467071 = 618838657 := by decide
      have z2 : zrun 2048 618838657 = 2235232296 := by decide
      have z3 : zrun 2048 2235232296 = 994025034 := by decide
      have z4 : zrun 2048 994025034 = 4243285113 := by decide
      have z5 : zrun 2048 4243285113 = 1983837041 := by decide
      have z6 : zrun 2048 1983837041 = 3799991205 := by decide
      have z7 : zrun 2048 3799991205 = 3978838557 := by decide
      have z8 : zrun 1920 3978838557 = 4071010094 := by decide
      rw [e, zrun_add, z1, zrun_add, z2, zrun_add, z3, zrun_add, z4,
          zrun_add, z5, zrun_add, z6, zrun_add, z7, z8]
    rw [hz]; decide
  have hc2 : headerCrc2 zeroGuid zeroGuid = 342945727 := by
    rw [headerCrc2, gptHeaderWithPartCrc, gptHeaderAfterFirstCrc, hc1, hpc, crc32_eq_listF]
    decide
  rw [gptHeaderFinal, hc2, gptHeaderWithPartCrc, gptHeaderAfterFirstCrc, hc1, hpc, crc32_eq_listF]
  decide

/-! ### C9: the two-pass FAT sizing reserves enough FAT entries -/

/-- C9: for partition geometries the volume builders accept (the FAT space
fits in the partition), the two-pass sizing leaves a FAT with at least
`final cluster count + 2` entries: `sectors_per_fat * bytes_per_sector / 4 ≥
sizingClusters + 2`, for any sector size ≥ 8 and positive cluster size. -/
theorem c9_fat_sizing_sufficient (partSectors resSectors spc bps : Nat)
    (hbps : 8 ≤ bps) (hspc : 0 < spc)
    (hfit : resSectors + 2 * Builder.sizingSpf partSectors resSectors spc bps ≤ partSectors) :
    Builder.sizingClusters partSectors resSectors spc bps 2 + 2 ≤
    Builder.sizingSpf partSectors resSectors spc bps * bps / 4 := by
  have hb : 0 < bps := by omega
  set nc1 := (partSectors - resSectors) / spc with hnc1
  have h1 : nc1 * 4 + bps ≤ Builder.sizingSpf partSectors resSectors spc bps * bps := by
    rw [Builder.sizingSpf, ← hnc1]
    have hdm := Nat.div_add_mod (nc1 * 4 + bps - 1) bps
    have hm : (nc1 * 4 + bps - 1) % bps < bps := Nat.mod_lt _ hb
    have hq : ((nc1 * 4 + bps - 1) / bps + 1) * bps =
        bps * ((nc1 * 4 + bps - 1) / bps) + bps := by ring
    omega
  have h2 : Builder.sizingClusters partSectors resSectors spc bps 2 ≤ nc1 := by
    rw [Builder.sizingClusters, hnc1]
    exact Nat.div_le_div_right (by omega)
  have h3 : (nc1 * 4 + bps) / 4 ≤ Builder.sizingSpf partSectors resSectors spc bps * bps / 4 :=
    Nat.div_le_div_right h1
  have h4 : (nc1 * 4 + bps) / 4 = bps / 4 + nc1 := by
    have e : nc1 * 4 + bps = bps + 4 * nc1 := by ring
    rw [e, Nat.add_mul_div_left bps nc1 (by norm_num : (0 : Nat) < 4)]
  have hb4 : 2 ≤ bps / 4 := by omega
  omega

/-- Witness for C9 at the geometry of create-fat32-image.py
(partition 129024 sectors, 32 reserved, 8 sectors per cluster, 512-byte
sectors). -/
theorem c9_fat_sizing_sufficient_witness :
    (8 ≤ 512 ∧ 0 < 8 ∧ 32 + 2 * Builder.sizingSpf 129024 32 8 512 ≤ 129024) ∧
    Builder.sizingClusters 129024 32 8 512 2 + 2 ≤ Builder.sizingSpf 129024 32 8 512 * 512 / 4 :=
  ⟨⟨by norm_num, by norm_num, by decide⟩,
   c9_fat_sizing_sufficient 129024 32 8 512 (by norm_num) (by norm_num) (by decide)⟩

/-! ### C2: the two FAT copies are byte-identical after every mutation -/

/-- Evaluation of the builder image inside the FAT-copy-1 region. -/
theorem builder_fat1_eval (i : Nat) (hi : i < 65024) :
    Builder.builderImage (1064960 + i) =
    if i < 20 then listContent (Builder.fatC.take 20) i else listContent Builder.fatA i := by
  have hf1 : Builder.fat1Offset = 1064960 := by decide
  have hf2 : Builder.fat2Offset = 1129984 := by decide
  have hfs : Builder.fatSizeBytes = 65024 := by decide
  have hrd : Builder.rootDirOffset = 1195008 := by decide
  have hed : Builder.efiDirOffset = 1199104 := by decide
  have hbd : Builder.bootDirOffset = 1203200 := by decide
  have esub : 1064960 + i - 1064960 = i := by omega
  have e17 : Builder.builderImage (1064960 + i) = Builder.bimgF (1064960 + i) :=
    writeRegion_miss _ _ _ _ _ (Or.inl (by omega))
  have e16 : Builder.bimgF (1064960 + i) = Builder.bimgE (1064960 + i) :=
    writeRegion_miss _ _ _ _ _ (Or.inl (by omega))
  have e15 : Builder.bimgE (1064960 + i) = Builder.bimgD (1064960 + i) :=
    writeRegion_miss _ _ _ _ _ (Or.inl (by omega))
  rw [e17, e16, e15]
  by_cases hc : i < 20
  · have e14 : Builder.bimgD (1064960 + i) =
        listContent (Builder.fatC.take 20) (1064960 + i - 1064960) :=
      writeRegion_hit _ _ _ _ _ (by omega) (by omega)
    rw [e14, esub, if_pos hc]
  · have e14 : Builder.bimgD (1064960 + i) = Builder.bimgC (1064960 + i) :=
      writeRegion_miss _ _ _ _ _ (Or.inr (by omega))
    have e13 : Builder.bimgC (1064960 + i) = Builder.bimgB (1064960 + i) :=
      writeRegion_miss _ _ _ _ _ (Or.inl (by omega))
    have e12 : Builder.bimgB (1064960 + i) = Builder.bimgA (1064960 + i) :=
      writeRegion_miss _ _ _ _ _ (Or.inl (by omega))
    have e11 : Builder.bimgA (1064960 + i) = Builder.bimg9 (1064960 + i) :=
      writeRegion_miss _ _ _ _ _ (Or.inl (by omega))
    have e10 : Builder.bimg9 (1064960 + i) = Builder.bimg8 (1064960 + i) :=
      writeRegion_miss _ _ _ _ _ (Or.inl (by omega))
    have e09 : Builder.bimg8 (1064960 + i) = Builder.bimg7 (1064960 + i) :=
      writeRegion_miss _ _ _ _ _ (Or.inr (by omega))
    have e08 : Builder.bimg7 (1064960 + i) = Builder.bimg6 (1064960 + i) :=
      writeRegion_miss _ _ _ _ _ (Or.inl (by omega))
    have e07 : Builder.bimg6 (1064960 + i) = Builder.bimg5 (1064960 + i) :=
      writeRegion_miss _ _ _ _ _ (Or.inl (by omega))
    have e06 : Builder.bimg5 (1064960 + i) = listContent Builder.fatA (1064960 + i - 1064960) :=
      writeRegion_hit _ _ _ _ _ (by omega) (by omega)
    rw [e14, e13, e12, e11, e10, e09, e08, e07, e06, esub, if_neg hc]

/-- Evaluation of the builder image inside the FAT-copy-2 region. -/
theorem builder_fat2_eval (i : Nat) (hi : i < 65024) :
    Builder.builderImage (1129984 + i) =
    if i < 20 then listContent (Builder.fatC.take 20) i else listContent Builder.fatA i := by
  have hf1 : Builder.fat1Offset = 1064960 := by decide
  have hf2 : Builder.fat2Offset = 1129984 := by decide
  have hfs : Builder.fatSizeBytes = 65024 := by decide
  have hrd : Builder.rootDirOffset = 1195008 := by decide
  have hed : Builder.efiDirOffset = 1199104 := by decide
  have hbd : Builder.bootDirOffset = 1203200 := by decide
  have esub : 1129984 + i - 1129984 = i := by omega
  have e17 : Builder.builderImage (1129984 + i) = Builder.bimgF (1129984 + i) :=
    writeRegion_miss _ _ _ _ _ (Or.inl (by omega))
  have e16 : Builder.bimgF (1129984 + i) = Builder.bimgE (1129984 + i) :=
    writeRegion_miss _ _ _ _ _ (Or.inl (by omega))
  rw [e17, e16]
  by_cases hc : i < 20
  · have e15 : Builder.bimgE (1129984 + i) =
        listContent (Builder.fatC.take 20) (1129984 + i - 1129984) :=
      writeRegion_hit _ _ _ _ _ (by omega) (by omega)
    rw [e15, esub, if_pos hc]
  · have e15 : Builder.bimgE (1129984 + i) = Builder.bimgD (1129984 + i) :=
      writeRegion_miss _ _ _ _ _ (Or.inr (by omega))
    have e14 : Builder.bimgD (1129984 + i) = Builder.bimgC (1129984 + i) :=
      writeRegion_miss _ _ _ _ _ (Or.inr (by omega))
    have e13 : Builder.bimgC (1129984 + i) = Builder.bimgB (1129984 + i) :=
      writeRegion_miss _ _ _ _ _ (Or.inl (by omega))
    have e12 : Builder.bimgB (1129984 + i) = Builder.bimgA (1129984 + i) :=
      writeRegion_miss _ _ _ _ _ (Or.inl (by omega))
    have e11 : Builder.bimgA (1129984 + i) = Builder.bimg9 (1129984 + i) :=
      writeRegion_miss _ _ _ _ _ (Or.inl (by omega))
    have e10 : Builder.bimg9 (1129984 + i) = Builder.bimg8 (1129984 + i) :=
      writeRegion_miss _ _ _ _ _ (Or.inr (by omega))
    have e09 : Builder.bimg8 (1129984 + i) = Builder.bimg7 (1129984 + i) :=
      writeRegion_miss _ _ _ _ _ (Or.inr (by omega))
    have e08 : Builder.bimg7 (1129984 + i) = Builder.bimg6 (1129984 + i) :=
      writeRegion_miss _ _ _ _ _ (Or.inl (by omega))
    have e07 : Builder.bimg6 (1129984 + i) = listContent Builder.fatA (1129984 + i - 1129984) :=
      writeRegion_hit _ _ _ _ _ (by omega) (by omega)
    rw [e15, e14, e13, e12, e11, e10, e09, e08, e07, esub, if_neg hc]

/-- Inversion of a successful `fat32_copy_file` run: the produced image, and
the fact that the allocator found enough clusters. -/
theorem fat32CopyFile_ok_inversion (img : Image) (data : List Nat)
    (parts : List (List Nat)) (tv dv cc idx : Nat) (out : Image)
    (hnav : CopyTool.navigate img parts.dropLast (CopyTool.rootCluster img) = some cc)
    (hslot : CopyTool.findFreeSlot img cc = some idx)
    (hok : CopyTool.fat32CopyFile img data parts tv dv = .ok out) :
    out = writeList (CopyTool.copyAfterFats img data)
        (CopyTool.dirOffset img cc + idx * 32)
        (CopyTool.copyDirEntry (padName (rsplitDot (pyUpper (parts.getLastD []))).1)
          (padExt (rsplitDot (pyUpper (parts.getLastD []))).2) tv dv
          ((CopyTool.freeClusters img
              (CopyTool.clustersNeeded data.length (CopyTool.clusterSize img))).headD 0)
          data.length)
    ∧ ¬ (CopyTool.freeClusters img
          (CopyTool.clustersNeeded data.length (CopyTool.clusterSize img))).length <
        CopyTool.clustersNeeded data.length (CopyTool.clusterSize img) := by
  unfold CopyTool.fat32CopyFile at hok
  rw [hnav] at hok
  dsimp only at hok
  rw [hslot] at hok
  dsimp only at hok
  split at hok
  · exact absurd hok (by simp)
  · rw [Except.ok.injEq] at hok
    exact ⟨hok.symm, by assumption⟩

/-- Reading the final copy-tool image inside the FAT-copy-1 region yields
the in-memory FAT buffer, provided the directory-entry write lands at or
beyond the data area. -/
theorem copyResult_fat1_eval (img : Image) (data : List Nat) (eOff : Nat)
    (entry : List Nat) (i : Nat) (hi : i < CopyTool.fatSizeBytes img)
    (he : CopyTool.fat1Offset img + 2 * CopyTool.fatSizeBytes img ≤ eOff) :
    writeList (CopyTool.copyAfterFats img data) eOff entry (CopyTool.fat1Offset img + i) =
    (CopyTool.copyWritten img data).2 i := by
  unfold writeList
  rw [writeRegion_miss _ _ _ _ _ (Or.inl (by omega))]
  dsimp only [CopyTool.copyAfterFats]
  rw [writeRegion_miss _ _ _ _ _ (Or.inl (by omega)),
    writeRegion_hit _ _ _ _ _ (by omega) (by omega)]
  have e : CopyTool.fat1Offset img + i - CopyTool.fat1Offset img = i := by omega
  rw [e]

/-- Reading the final copy-tool image inside the FAT-copy-2 region yields
the same in-memory FAT buffer. -/
theorem copyResult_fat2_eval (img : Image) (data : List Nat) (eOff : Nat)
    (entry : List Nat) (i : Nat) (hi : i < CopyTool.fatSizeBytes img)
    (he : CopyTool.fat1Offset img + 2 * CopyTool.fatSizeBytes img ≤ eOff) :
    writeList (CopyTool.copyAfterFats img data) eOff entry
      (CopyTool.fat1Offset img + CopyTool.fatSizeBytes img + i) =
    (CopyTool.copyWritten img data).2 i := by
  unfold writeList
  rw [writeRegion_miss _ _ _ _ _ (Or.inl (by omega))]
  dsimp only [CopyTool.copyAfterFats]
  rw [writeRegion_hit _ _ _ _ _ (by omega) (by omega)]
  have e : CopyTool.fat1Offset img + CopyTool.fatSizeBytes img + i -
      (CopyTool.fat1Offset img + CopyTool.fatSizeBytes img) = i := by omega
  rw [e]

/-- Writes of the update loop never touch bytes below the data area. -/
theorem updateClustersAux_low (bpb : UpdTool.Bpb) (data : List Nat) :
    ∀ (chain : List Nat) (i : Nat) (img : Image) (a : Nat),
      a < (bpb.reservedSectors + bpb.numFats * bpb.sectorsPerFat) * bpb.bytesPerSector →
      UpdTool.updateClustersAux bpb data chain i img a = img a := by
  intro chain
  induction chain with
  | nil => intro i img a _; rfl
  | cons c rest ih =>
    intro i img a ha
    have hoff : a < UpdTool.clusterToOffset bpb c := by
      have hle := Nat.mul_le_mul_right bpb.bytesPerSector
        (Nat.le_add_right (bpb.reservedSectors + bpb.numFats * bpb.sectorsPerFat)
          ((c - 2) * bpb.sectorsPerCluster))
      calc a < (bpb.reservedSectors + bpb.numFats * bpb.sectorsPerFat) * bpb.bytesPerSector := ha
        _ ≤ _ := hle
    simp only [UpdTool.updateClustersAux]
    split
    · exact writeRegion_miss _ _ _ _ _ (Or.inl hoff)
    · rw [ih (i + 1) _ a ha]
      exact writeRegion_miss _ _ _ _ _ (Or.inl hoff)

/-- C2: the two on-disk FAT copies are byte-identical after every mutating
operation.  Part 1: in the image produced by the MBR volume builder, FAT
copy 1 and FAT copy 2 are byte-for-byte equal.  Part 2: after a successful
`fat32_copy_file` (navigation result `cc ≥ 2`, `num_fats = 2` as the tools
create), the two FAT copies of the output are byte-for-byte equal.
Part 3: `update_file` never writes below the data area, so FAT copies that
were byte-identical before an update remain byte-identical after it
(the update path performs no FAT mutation). -/
theorem c2_fat_copies_identical :
    (∀ i, i < Builder.fatSizeBytes →
      Builder.builderImage (Builder.fat1Offset + i) = Builder.builderImage (Builder.fat2Offset + i))
    ∧ (∀ (img : Image) (data : List Nat) (parts : List (List Nat)) (tv dv cc : Nat) (out : Image),
        CopyTool.navigate img parts.dropLast (CopyTool.rootCluster img) = some cc →
        2 ≤ cc → CopyTool.numFats img = 2 →
        CopyTool.fat32CopyFile img data parts tv dv = .ok out →
        ∀ i, i < CopyTool.fatSizeBytes img →
          out (CopyTool.fat1Offset img + i) =
          out (CopyTool.fat1Offset img + CopyTool.fatSizeBytes img + i))
    ∧ (∀ (img : Image) (bpb : UpdTool.Bpb) (st : Nat) (data : List Nat) (fuel : Nat)
        (out : Image) (chain : List Nat),
        UpdTool.getClusterChain (UpdTool.readFat img bpb) st fuel = some chain →
        (∀ c ∈ chain, 2 ≤ c) → bpb.numFats = 2 →
        UpdTool.updateFile img bpb st data fuel = some out →
        (∀ i, i < UpdTool.fatSizeBytes bpb →
          img (bpb.reservedSectors * bpb.bytesPerSector + i) =
          img (bpb.reservedSectors * bpb.bytesPerSector + UpdTool.fatSizeBytes bpb + i)) →
        ∀ i, i < UpdTool.fatSizeBytes bpb →
          out (bpb.reservedSectors * bpb.bytesPerSector + i) =
          out (bpb.reservedSectors * bpb.bytesPerSector + UpdTool.fatSizeBytes bpb + i)) := by
  refine ⟨?_, ?_, ?_⟩
  · -- builder
    intro i hi
    have hfs : Builder.fatSizeBytes = 65024 := by decide
    have hf1 : Builder.fat1Offset = 1064960 := by decide
    have hf2 : Builder.fat2Offset = 1129984 := by decide
    rw [hfs] at hi
    rw [hf1, hf2, builder_fat1_eval i hi, builder_fat2_eval i hi]
  · -- copy tool
    intro img data parts tv dv cc out hnav hcc hnf hok i hi
    cases hslot : CopyTool.findFreeSlot img cc with
    | none =>
      exfalso
      unfold CopyTool.fat32CopyFile at hok
      rw [hnav] at hok
      dsimp only at hok
      rw [hslot] at hok
      exact absurd hok (by simp)
    | some idx =>
      obtain ⟨hout, -⟩ :=
        fat32CopyFile_ok_inversion img data parts tv dv cc idx out hnav hslot hok
      subst hout
      have hdo : CopyTool.dataOffset img =
          CopyTool.fat1Offset img + 2 * CopyTool.fatSizeBytes img := by
        unfold CopyTool.dataOffset
        rw [hnf]
      have hdir : CopyTool.fat1Offset img + 2 * CopyTool.fatSizeBytes img ≤
          CopyTool.dirOffset img cc + idx * 32 := by
        rw [← hdo]
        unfold CopyTool.dirOffset
        omega
      exact (copyResult_fat1_eval img data _ _ i hi hdir).trans
        (copyResult_fat2_eval img data _ _ i hi hdir).symm
  · -- update tool
    intro img bpb st data fuel out chain hchain hcl hnf2 hok pre i hi
    unfold UpdTool.updateFile at hok
    rw [hchain] at hok
    dsimp only at hok
    rw [Option.some.injEq] at hok
    subst hok
    have hfs2 : (bpb.reservedSectors + bpb.numFats * bpb.sectorsPerFat) * bpb.bytesPerSector =
        bpb.reservedSectors * bpb.bytesPerSector + 2 * UpdTool.fatSizeBytes bpb := by
      rw [hnf2]
      unfold UpdTool.fatSizeBytes
      ring
    rw [updateClustersAux_low bpb data chain 0 img _ (by omega),
      updateClustersAux_low bpb data chain 0 img _ (by omega)]
    exact pre i hi

/-- Witness for C2: the builder part at byte 0 of the FAT regions, the copy
part on `wimg` with a 600-byte file `A` copied into the root directory, and
the update part on `uimg` with a 700-byte update of the file at cluster 2. -/
theorem c2_fat_copies_identical_witness :
    (0 < Builder.fatSizeBytes ∧
      Builder.builderImage (Builder.fat1Offset + 0) =
      Builder.builderImage (Builder.fat2Offset + 0))
    ∧ (CopyTool.navigate wimg ([[65]] : List (List Nat)).dropLast (CopyTool.rootCluster wimg) =
        some 2
      ∧ CopyTool.numFats wimg = 2
      ∧ CopyTool.fat32CopyFile wimg wdata600 [[65]] 0 0 =
          .ok (CopyTool.copyOut wimg wdata600 [[65]] 0 0)
      ∧ 0 < CopyTool.fatSizeBytes wimg
      ∧ CopyTool.copyOut wimg wdata600 [[65]] 0 0 (CopyTool.fat1Offset wimg + 0) =
          CopyTool.copyOut wimg wdata600 [[65]] 0 0
            (CopyTool.fat1Offset wimg + CopyTool.fatSizeBytes wimg + 0))
    ∧ (UpdTool.getClusterChain (UpdTool.readFat uimg ubpb) 2 10 = some [2]
      ∧ ubpb.numFats = 2
      ∧ UpdTool.updateFile uimg ubpb 2 udata700 10 = some (updOut uimg ubpb 2 udata700 10)
      ∧ (∀ i, i < UpdTool.fatSizeBytes ubpb →
          uimg (ubpb.reservedSectors * ubpb.bytesPerSector + i) =
          uimg (ubpb.reservedSectors * ubpb.bytesPerSector + UpdTool.fatSizeBytes ubpb + i))
      ∧ updOut uimg ubpb 2 udata700 10 (ubpb.reservedSectors * ubpb.bytesPerSector + 0) =
          updOut uimg ubpb 2 udata700 10
            (ubpb.reservedSectors * ubpb.bytesPerSector + UpdTool.fatSizeBytes ubpb + 0)) := by
  refine ⟨⟨by decide, c2_fat_copies_identical.1 0 (by decide)⟩, ?_, ?_⟩
  · refine ⟨by decide, by decide, rfl, by decide, ?_⟩
    exact c2_fat_copies_identical.2.1 wimg wdata600 [[65]] 0 0 2 _ (by decide) (by decide)
      (by decide) rfl 0 (by decide)
  · refine ⟨by decide, by decide, rfl, by decide, ?_⟩
    exact c2_fat_copies_identical.2.2 uimg ubpb 2 udata700 10 _ [2] (by decide) (by decide)
      (by decide) rfl (by decide) 0 (by decide)

/-! ### C3: allocation size and chain linking of the copy path -/

/-- The allocator scan never collects more clusters than requested. -/
theorem scanFreeAux_length_le (f : Nat → Nat) :
    ∀ (fuel needed i : Nat), 1 ≤ needed →
      (CopyTool.scanFreeAux f needed i fuel).length ≤ needed := by
  intro fuel
  induction fuel with
  | zero => intro needed i h; simp [CopyTool.scanFreeAux]
  | succ left ih =>
    intro needed i h
    simp only [CopyTool.scanFreeAux]
    split
    · split
      · simpa using h
      · have hrec := ih (needed - 1) (i + 1) (by omega)
        simp only [List.length_cons]
        omega
    · exact ih needed (i + 1) h

/-- Every collected cluster lies in the scanned range `[i, i + fuel)`. -/
theorem scanFreeAux_mem_bounds (f : Nat → Nat) :
    ∀ (fuel needed i x : Nat), x ∈ CopyTool.scanFreeAux f needed i fuel →
      i ≤ x ∧ x < i + fuel := by
  intro fuel
  induction fuel with
  | zero => intro needed i x hx; simp [CopyTool.scanFreeAux] at hx
  | succ left ih =>
    intro needed i x hx
    simp only [CopyTool.scanFreeAux] at hx
    split at hx
    · split at hx
      · simp at hx
        omega
      · simp only [List.mem_cons] at hx
        rcases hx with rfl | hx
        · omega
        · have := ih (needed - 1) (i + 1) x hx
          omega
    · have := ih needed (i + 1) x hx
      omega

/-- The collected clusters are strictly increasing. -/
theorem scanFreeAux_sorted (f : Nat → Nat) :
    ∀ (fuel needed i : Nat), (CopyTool.scanFreeAux f needed i fuel).Pairwise (· < ·) := by
  intro fuel
  induction fuel with
  | zero => intro needed i; simp [CopyTool.scanFreeAux]
  | succ left ih =>
    intro needed i
    simp only [CopyTool.scanFreeAux]
    split
    · split
      · simp
      · refine List.pairwise_cons.mpr ⟨?_, ih (needed - 1) (i + 1)⟩
        intro x hx
        have := scanFreeAux_mem_bounds f left (needed - 1) (i + 1) x hx
        omega
    · exact ih needed (i + 1)

/-- The FAT-buffer writes of the data loop leave untouched every byte
outside the written clusters' FAT entries. -/
theorem writeClustersAux_fat_frame (dataOff cs : Nat) (data : List Nat) :
    ∀ (l : List Nat) (i : Nat) (imgA : Image) (fatF : Nat → Nat) (a : Nat),
      (∀ c ∈ l, a < c * 4 ∨ c * 4 + 4 ≤ a) →
      (CopyTool.writeClustersAux dataOff cs data l i imgA fatF).2 a = fatF a := by
  intro l
  induction l with
  | nil => intro i imgA fatF a _; rfl
  | cons c rest ih =>
    intro i imgA fatF a h
    simp only [CopyTool.writeClustersAux]
    rw [ih (i + 1) _ _ a (fun c' hc' => h c' (List.mem_cons_of_mem _ hc'))]
    exact writeRegion_miss _ _ _ _ _ (h c (List.mem_cons_self _ _))

/-- After the data loop, the FAT buffer holds, at each written cluster's
entry, the masked next cluster of the chain — end-of-chain `0x0FFFFFFF` for
the last one. -/
theorem writeClustersAux_fat_link (dataOff cs : Nat) (data : List Nat) :
    ∀ (l : List Nat) (i : Nat) (imgA : Image) (fatF : Nat → Nat),
      l.Pairwise (· < ·) →
      ∀ j, j < l.length → ∀ k, k < 4 →
        (CopyTool.writeClustersAux dataOff cs data l i imgA fatF).2 (l.getD j 0 * 4 + k) =
        listContent (le4 (if j = l.length - 1 then 0x0FFFFFFF
          else l.getD (j + 1) 0 &&& 0x0FFFFFFF)) k := by
  intro l
  induction l with
  | nil => intro i imgA fatF _ j hj; simp at hj
  | cons c rest ih =>
    intro i imgA fatF hp j hj k hk
    simp only [CopyTool.writeClustersAux]
    cases j with
    | zero =>
      simp only [List.getD_cons_zero]
      have hfr : ∀ c' ∈ rest, c * 4 + k < c' * 4 ∨ c' * 4 + 4 ≤ c * 4 + k := by
        intro c' hc'
        have : c < c' := (List.pairwise_cons.mp hp).1 c' hc'
        left
        omega
      rw [writeClustersAux_fat_frame dataOff cs data rest (i + 1) _ _ _ hfr,
        writeRegion_hit _ _ _ _ _ (by omega) (by omega)]
      have e : c * 4 + k - c * 4 = k := by omega
      rw [e]
      cases rest with
      | nil => simp
      | cons c' rest' =>
        rw [if_neg (by simp)]
        simp
    | succ j' =>
      simp only [List.getD_cons_succ]
      have hj' : j' < rest.length := by simpa using hj
      rw [ih (i + 1) _ _ (List.pairwise_cons.mp hp).2 j' hj' k hk]
      simp only [List.length_cons, Nat.add_sub_cancel]
      by_cases hend : j' = rest.length - 1
      · rw [if_pos hend, if_pos (by omega)]
      · rw [if_neg hend, if_neg (by omega)]

/-- Recombining four bytes written as `struct.pack('<I', v)`. -/
theorem readLE32_from_le4 (g : Image) (off v : Nat) (hv : v < 4294967296)
    (h : ∀ k, k < 4 → g (off + k) = listContent (le4 v) k) :
    readLE32 g off = v := by
  have h0 := h 0 (by norm_num)
  have h1 := h 1 (by norm_num)
  have h2 := h 2 (by norm_num)
  have h3 := h 3 (by norm_num)
  rw [Nat.add_zero] at h0
  unfold readLE32
  rw [h0, h1, h2, h3]
  simp only [listContent, le4, List.getD_cons_zero, List.getD_cons_succ]
  omega

theorem clustersNeeded_pos (size cs : Nat) : 1 ≤ CopyTool.clustersNeeded size cs := by
  unfold CopyTool.clustersNeeded
  dsimp only
  by_cases h : (size + cs - 1) / cs = 0
  · rw [if_pos h]
  · rw [if_neg h]
    exact Nat.one_le_iff_ne_zero.mpr h

theorem clustersNeeded_of_zero (cs : Nat) (h : 0 < cs) : CopyTool.clustersNeeded 0 cs = 1 := by
  unfold CopyTool.clustersNeeded
  dsimp only
  rw [if_pos (Nat.div_eq_of_lt (by omega : 0 + cs - 1 < cs))]

theorem clustersNeeded_of_pos (size cs : Nat) (hcs : 0 < cs) (hs : 0 < size) :
    CopyTool.clustersNeeded size cs = (size + cs - 1) / cs := by
  unfold CopyTool.clustersNeeded
  dsimp only
  have e : (size + cs - 1) / cs ≠ 0 := by
    have := Nat.div_pos (by omega : cs ≤ size + cs - 1) hcs
    omega
  rw [if_neg e]

/-- C3 (amended): a successful `fat32_copy_file` of `S` bytes with cluster
size `C` allocates exactly `clustersNeeded S C` clusters — `ceil(S/C)` for
`S > 0` but 1 (not 0) for `S = 0` — and links them in the written FAT:
the last chain entry reads back (masked) as `0x0FFFFFFF`, and every earlier
entry reads back as the next cluster of the chain. -/
theorem c3_allocation_length_and_links (img : Image) (data : List Nat)
    (parts : List (List Nat)) (tv dv cc : Nat) (out : Image)
    (hnav : CopyTool.navigate img parts.dropLast (CopyTool.rootCluster img) = some cc)
    (hcc : 2 ≤ cc)
    (hnf : CopyTool.numFats img = 2)
    (hcs : 0 < CopyTool.clusterSize img)
    (hlim : CopyTool.fatEntriesLimit img ≤ 0x10000000)
    (hok : CopyTool.fat32CopyFile img data parts tv dv = .ok out) :
    (CopyTool.allocatedChain img data).length =
      CopyTool.clustersNeeded data.length (CopyTool.clusterSize img)
    ∧ (data.length = 0 → (CopyTool.allocatedChain img data).length = 1)
    ∧ (0 < data.length → (CopyTool.allocatedChain img data).length =
        (data.length + CopyTool.clusterSize img - 1) / CopyTool.clusterSize img)
    ∧ readFatEntryImg out (CopyTool.fat1Offset img)
        ((CopyTool.allocatedChain img data).getD
          ((CopyTool.allocatedChain img data).length - 1) 0) = 0x0FFFFFFF
    ∧ (∀ j, j + 1 < (CopyTool.allocatedChain img data).length →
        readFatEntryImg out (CopyTool.fat1Offset img)
          ((CopyTool.allocatedChain img data).getD j 0) =
        (CopyTool.allocatedChain img data).getD (j + 1) 0) := by
  cases hslot : CopyTool.findFreeSlot img cc with
  | none =>
    exfalso
    unfold CopyTool.fat32CopyFile at hok
    rw [hnav] at hok
    dsimp only at hok
    rw [hslot] at hok
    exact absurd hok (by simp)
  | some idx =>
    obtain ⟨hout, hlen⟩ :=
      fat32CopyFile_ok_inversion img data parts tv dv cc idx out hnav hslot hok
    have hone := clustersNeeded_pos data.length (CopyTool.clusterSize img)
    have hub := scanFreeAux_length_le (CopyTool.fatEntryAt img)
      (CopyTool.fatEntriesLimit img - 2)
      (CopyTool.clustersNeeded data.length (CopyTool.clusterSize img)) 2 hone
    have hchainlen : (CopyTool.allocatedChain img data).length =
        CopyTool.clustersNeeded data.length (CopyTool.clusterSize img) := by
      unfold CopyTool.allocatedChain CopyTool.freeClusters
      unfold CopyTool.freeClusters at hlen
      omega
    have hdo : CopyTool.dataOffset img =
        CopyTool.fat1Offset img + 2 * CopyTool.fatSizeBytes img := by
      unfold CopyTool.dataOffset
      rw [hnf]
    have hdir : CopyTool.fat1Offset img + 2 * CopyTool.fatSizeBytes img ≤
        CopyTool.dirOffset img cc + idx * 32 := by
      rw [← hdo]
      unfold CopyTool.dirOffset
      omega
    have hsorted : (CopyTool.allocatedChain img data).Pairwise (· < ·) :=
      scanFreeAux_sorted (CopyTool.fatEntryAt img)
        (CopyTool.fatEntriesLimit img - 2)
        (CopyTool.clustersNeeded data.length (CopyTool.clusterSize img)) 2
    -- byte-level readback of the FAT entry of chain element j
    have hkey : ∀ j, j < (CopyTool.allocatedChain img data).length → ∀ k, k < 4 →
        out (CopyTool.fat1Offset img + (CopyTool.allocatedChain img data).getD j 0 * 4 + k) =
        listContent (le4 (if j = (CopyTool.allocatedChain img data).length - 1 then 0x0FFFFFFF
          else (CopyTool.allocatedChain img data).getD (j + 1) 0 &&& 0x0FFFFFFF)) k := by
      intro j hj k hk
      have hmem : (CopyTool.allocatedChain img data).getD j 0 ∈
          CopyTool.allocatedChain img data := by
        rw [List.getD_eq_getElem _ _ hj]
        exact List.getElem_mem hj
      have hbounds := scanFreeAux_mem_bounds (CopyTool.fatEntryAt img)
        (CopyTool.fatEntriesLimit img - 2)
        (CopyTool.clustersNeeded data.length (CopyTool.clusterSize img)) 2 _ hmem
      have hlim4 : CopyTool.fatEntriesLimit img = CopyTool.fatSizeBytes img / 4 := rfl
      have helem4 : (CopyTool.allocatedChain img data).getD j 0 * 4 + 4 ≤
          CopyTool.fatSizeBytes img := by
        omega
      have hassoc : CopyTool.fat1Offset img +
          (CopyTool.allocatedChain img data).getD j 0 * 4 + k =
          CopyTool.fat1Offset img +
          ((CopyTool.allocatedChain img data).getD j 0 * 4 + k) := by
        omega
      rw [hout, hassoc,
        copyResult_fat1_eval img data _ _ _ (by omega) hdir]
      have hcw : (CopyTool.copyWritten img data).2 =
          (CopyTool.writeClustersAux (CopyTool.dataOffset img) (CopyTool.clusterSize img)
            data (CopyTool.allocatedChain img data) 0 img
            (fun k => img (CopyTool.fat1Offset img + k))).2 := rfl
      rw [hcw, writeClustersAux_fat_link _ _ _ _ _ _ _ hsorted j hj k hk]
    refine ⟨hchainlen, ?_, ?_, ?_, ?_⟩
    · intro h0
      rw [hchainlen, h0, clustersNeeded_of_zero _ hcs]
    · intro hpos
      rw [hchainlen, clustersNeeded_of_pos _ _ hcs hpos]
    · -- last entry reads back as EOC
      unfold readFatEntryImg
      have hj : (CopyTool.allocatedChain img data).length - 1 <
          (CopyTool.allocatedChain img data).length := by
        omega
      have hle32 : readLE32 out (CopyTool.fat1Offset img +
          (CopyTool.allocatedChain img data).getD
            ((CopyTool.allocatedChain img data).length - 1) 0 * 4) = 0x0FFFFFFF := by
        apply readLE32_from_le4 _ _ _ (by norm_num)
        intro k hk
        have := hkey ((CopyTool.allocatedChain img data).length - 1) hj k hk
        rw [if_pos rfl] at this
        exact this
      rw [hle32, Nat.and_self]
    · -- intermediate entries read back as the next chain element
      intro j hj5
      unfold readFatEntryImg
      have hmem1 : (CopyTool.allocatedChain img data).getD (j + 1) 0 ∈
          CopyTool.allocatedChain img data := by
        rw [List.getD_eq_getElem _ _ hj5]
        exact List.getElem_mem hj5
      have hbounds1 := scanFreeAux_mem_bounds (CopyTool.fatEntryAt img)
        (CopyTool.fatEntriesLimit img - 2)
        (CopyTool.clustersNeeded data.length (CopyTool.clusterSize img)) 2 _ hmem1
      have hlt28 : (CopyTool.allocatedChain img data).getD (j + 1) 0 < 2 ^ 28 := by
        have : (268435456 : Nat) = 2 ^ 28 := by norm_num
        omega
      have hle32 : readLE32 out (CopyTool.fat1Offset img +
          (CopyTool.allocatedChain img data).getD j 0 * 4) =
          (CopyTool.allocatedChain img data).getD (j + 1) 0 &&& 0x0FFFFFFF := by
        apply readLE32_from_le4 _ _ _
          (lt_of_le_of_lt Nat.and_le_right (by norm_num))
        intro k hk
        have := hkey j (by omega) k hk
        rw [if_neg (by omega)] at this
        exact this
      rw [hle32, Nat.and_assoc, Nat.and_self,
        show (0x0FFFFFFF : Nat) = 2 ^ 28 - 1 from by norm_num,
        Nat.and_pow_two_sub_one_of_lt_two_pow hlt28]

/-- Counterexample to C3 as stated: copying an empty (0-byte) file `B` into
`wimg` succeeds and allocates a chain of 1 cluster, while
`ceil(0 / 512) = (0 + 512 - 1) / 512 = 0` — the chain length is not
`ceil(S/C)` when `S = 0`. -/
theorem c3_counterexample_zero_size :
    CopyTool.fat32CopyFile wimg [] [[66]] 0 0 = .ok (CopyTool.copyOut wimg [] [[66]] 0 0)
    ∧ (CopyTool.allocatedChain wimg []).length = 1
    ∧ (List.length ([] : List Nat) + CopyTool.clusterSize wimg - 1) /
        CopyTool.clusterSize wimg = 0 :=
  ⟨rfl, by decide, by decide⟩

/-- Witness for C3 (amended) on `wimg` with a 600-byte payload: two 512-byte
clusters are allocated and the second one's FAT entry reads back as EOC. -/
theorem c3_allocation_witness :
    (CopyTool.navigate wimg ([[65]] : List (List Nat)).dropLast (CopyTool.rootCluster wimg) =
        some 2
      ∧ 2 ≤ 2
      ∧ CopyTool.numFats wimg = 2
      ∧ 0 < CopyTool.clusterSize wimg
      ∧ CopyTool.fatEntriesLimit wimg ≤ 0x10000000
      ∧ CopyTool.fat32CopyFile wimg wdata600 [[65]] 0 0 =
          .ok (CopyTool.copyOut wimg wdata600 [[65]] 0 0))
    ∧ CopyTool.allocatedChain wimg wdata600 = [3, 4]
    ∧ readFatEntryImg (CopyTool.copyOut wimg wdata600 [[65]] 0 0) (CopyTool.fat1Offset wimg)
        ((CopyTool.allocatedChain wimg wdata600).getD
          ((CopyTool.allocatedChain wimg wdata600).length - 1) 0) = 0x0FFFFFFF
    ∧ (∀ j, j + 1 < (CopyTool.allocatedChain wimg wdata600).length →
        readFatEntryImg (CopyTool.copyOut wimg wdata600 [[65]] 0 0) (CopyTool.fat1Offset wimg)
          ((CopyTool.allocatedChain wimg wdata600).getD j 0) =
        (CopyTool.allocatedChain wimg wdata600).getD (j + 1) 0) :=
  ⟨⟨by decide, by norm_num, by decide, by decide, by decide, rfl⟩,
   by decide,
   (c3_allocation_length_and_links wimg wdata600 [[65]] 0 0 2 _
      (by decide) (by norm_num) (by decide) (by decide) (by decide) rfl).2.2.2.1,
   (c3_allocation_length_and_links wimg wdata600 [[65]] 0 0 2 _
      (by decide) (by norm_num) (by decide) (by decide) (by decide) rfl).2.2.2.2⟩

/-! ### C8: the free-slot scan of the copy path -/

/-- The free-slot scan returns the first slot in its range whose record
starts with 0x00 or 0xE5. -/
theorem findFreeSlotAux_spec (img : Image) (dOff : Nat) :
    ∀ (fuel i idx : Nat), CopyTool.findFreeSlotAux img dOff i fuel = some idx →
      (img (dOff + idx * 32) = 0 ∨ img (dOff + idx * 32) = 0xE5)
      ∧ i ≤ idx
      ∧ ∀ j, i ≤ j → j < idx →
          ¬(img (dOff + j * 32) = 0 ∨ img (dOff + j * 32) = 0xE5) := by
  intro fuel
  induction fuel with
  | zero => intro i idx h; simp [CopyTool.findFreeSlotAux] at h
  | succ left ih =>
    intro i idx h
    simp only [CopyTool.findFreeSlotAux] at h
    split at h
    · rw [Option.some.injEq] at h
      subst h
      exact ⟨by assumption, Nat.le_refl _, fun j hij hji => by omega⟩
    · obtain ⟨h1, h2, h3⟩ := ih (i + 1) idx h
      refine ⟨h1, by omega, ?_⟩
      intro j hij hji
      rcases Nat.eq_or_lt_of_le hij with rfl | hlt
      · assumption
      · exact h3 j (by omega) hji

/-- C8 (amended): with the final directory resolved to cluster `cc`, the
copy fails with the no-free-directory-entries error iff the scan over the
`clusterSize/32` slots of that single cluster finds no free slot — only the
first cluster of the directory is ever scanned; and when a slot is found it
is the first free one of that cluster. -/
theorem c8_directory_full_iff_no_slot_in_first_cluster (img : Image) (data : List Nat)
    (parts : List (List Nat)) (tv dv cc : Nat)
    (hnav : CopyTool.navigate img parts.dropLast (CopyTool.rootCluster img) = some cc) :
    (CopyTool.fat32CopyFile img data parts tv dv = .error .noFreeDirEntries ↔
      CopyTool.findFreeSlot img cc = none)
    ∧ (∀ idx, CopyTool.findFreeSlot img cc = some idx →
        (img (CopyTool.dirOffset img cc + idx * 32) = 0 ∨
          img (CopyTool.dirOffset img cc + idx * 32) = 0xE5)
        ∧ ∀ j, j < idx →
            ¬(img (CopyTool.dirOffset img cc + j * 32) = 0 ∨
              img (CopyTool.dirOffset img cc + j * 32) = 0xE5)) := by
  constructor
  · unfold CopyTool.fat32CopyFile
    rw [hnav]
    dsimp only
    cases hslot : CopyTool.findFreeSlot img cc with
    | none => simp
    | some idx =>
      dsimp only
      constructor
      · intro h
        split at h
        · exact absurd h (by simp)
        · exact absurd h (by simp)
      · intro h
        exact absurd h (by simp)
  · intro idx hidx
    obtain ⟨h1, -, h3⟩ := findFreeSlotAux_spec img (CopyTool.dirOffset img cc) _ 0 idx hidx
    exact ⟨h1, fun j hj => h3 j (Nat.zero_le j) hj⟩

/-- Counterexample to C8 as stated: on `c8img` the root directory's first
cluster is full, but its chain continues (`FAT[2] = 3`) into cluster 3
whose first record is free — the copy nevertheless fails with the
no-free-entries error, because only the first cluster is scanned. -/
theorem c8_counterexample_chained_directory :
    CopyTool.fat32CopyFile c8img [1, 2, 3] [[65]] 0 0 = .error .noFreeDirEntries
    ∧ CopyTool.fatEntryAt c8img 2 = 3
    ∧ CopyTool.fatEntryAt c8img 3 = 0x0FFFFFFF
    ∧ c8img (CopyTool.dirOffset c8img 3 + 0 * 32) = 0 :=
  ⟨rfl, by decide, by decide, by decide⟩

/-- Witness for C8 (amended) on `c8img`: the hypothesis holds and the
failure is equivalent to the scan of the first directory cluster finding
nothing. -/
theorem c8_directory_full_witness :
    CopyTool.navigate c8img ([[65]] : List (List Nat)).dropLast (CopyTool.rootCluster c8img) =
      some 2
    ∧ (CopyTool.fat32CopyFile c8img [1, 2, 3] [[65]] 0 0 = .error .noFreeDirEntries ↔
        CopyTool.findFreeSlot c8img 2 = none) :=
  ⟨by decide,
   (c8_directory_full_iff_no_slot_in_first_cluster c8img [1, 2, 3] [[65]] 0 0 2 (by decide)).1⟩

/-! ### C5: termination of the cluster-chain walk -/

theorem linkIter_shift (fat : List Nat) (c : Nat) :
    ∀ k, linkIter fat c (k + 1) = linkIter fat (fat.getD c 0) k := by
  intro k
  induction k with
  | zero => rfl
  | succ k' ih =>
    show fat.getD (linkIter fat c (k' + 1)) 0 = _
    rw [ih]
    rfl

/-- If the chain-walk loop fails to finish within its fuel, every iterate of
the link function up to that fuel keeps satisfying the loop's continue
condition. -/
theorem chainAuxNone_ok (fat : List Nat) :
    ∀ (fuel c : Nat) (ch : List Nat),
      UpdTool.getClusterChainAux fat c ch fuel = none →
      ∀ k, k < fuel → okStepB fat (linkIter fat c k) = true := by
  intro fuel
  induction fuel with
  | zero => intro c ch _ k hk; omega
  | succ f ih =>
    intro c ch h k hk
    simp only [UpdTool.getClusterChainAux] at h
    by_cases h1 : c < fat.length
    · rw [if_pos h1] at h
      by_cases h2 : 0x0FFFFFF8 ≤ fat.getD c 0
      · rw [if_pos h2] at h
        exact absurd h (by simp)
      · rw [if_neg h2] at h
        by_cases h3 : fat.getD c 0 = 0
        · rw [if_pos h3] at h
          exact absurd h (by simp)
        · rw [if_neg h3] at h
          cases k with
          | zero =>
            simp only [linkIter, okStepB, Bool.and_eq_true, decide_eq_true_eq]
            exact ⟨⟨h1, by omega⟩, h3⟩
          | succ k' =>
            rw [linkIter_shift]
            exact ih (fat.getD c 0) _ h k' (by omega)
    · rw [if_neg h1] at h
      exact absurd h (by simp)

/-- When the walk finishes, the last chain element is the cluster at which
the loop broke: out of range, an EOC entry (the final cluster is included),
or a free (0) entry. -/
theorem chainAuxSome_last (fat : List Nat) :
    ∀ (fuel c : Nat) (ch r : List Nat), ch.getLast? = some c →
      UpdTool.getClusterChainAux fat c ch fuel = some r →
      ∃ last, r.getLast? = some last ∧
        (fat.length ≤ last ∨ 0x0FFFFFF8 ≤ fat.getD last 0 ∨ fat.getD last 0 = 0) := by
  intro fuel
  induction fuel with
  | zero => intro c ch r _ h; simp [UpdTool.getClusterChainAux] at h
  | succ f ih =>
    intro c ch r hlast h
    simp only [UpdTool.getClusterChainAux] at h
    by_cases h1 : c < fat.length
    · rw [if_pos h1] at h
      by_cases h2 : 0x0FFFFFF8 ≤ fat.getD c 0
      · rw [if_pos h2] at h
        rw [Option.some.injEq] at h
        subst h
        exact ⟨c, hlast, Or.inr (Or.inl h2)⟩
      · rw [if_neg h2] at h
        by_cases h3 : fat.getD c 0 = 0
        · rw [if_pos h3] at h
          rw [Option.some.injEq] at h
          subst h
          exact ⟨c, hlast, Or.inr (Or.inr h3)⟩
        · rw [if_neg h3] at h
          exact ih (fat.getD c 0) (ch ++ [fat.getD c 0]) r (List.getLast?_concat _) h
    · rw [if_neg h1] at h
      rw [Option.some.injEq] at h
      subst h
      exact ⟨c, hlast, Or.inl (by omega)⟩

/-- On the two-entry FAT `[0, 1]` the link of cluster 1 is 1 (a self-cycle),
and the walk loops forever: no fuel ever completes it. -/
theorem c5aux_cycle : ∀ (n : Nat) (ch : List Nat),
    UpdTool.getClusterChainAux [0, 1] 1 ch n = none := by
  intro n
  induction n with
  | zero => intro ch; rfl
  | succ m ih => intro ch; exact ih (ch ++ [1])

/-- Counterexample to C5 as stated: for the FAT `[0, 1]` (which has the
cycle `FAT[1] = 1`) and start cluster 1, the cluster-chain walk does not
terminate — no amount of fuel makes `get_cluster_chain`'s loop finish. -/
theorem c5_counterexample_cycle :
    ¬ ∃ n, (UpdTool.getClusterChain [0, 1] 1 n).isSome = true := by
  rintro ⟨n, hn⟩
  rw [UpdTool.getClusterChain, c5aux_cycle n [1]] at hn
  exact absurd hn (by simp)

/-- C5 (amended): for every FAT and start cluster whose link iteration
revisits no cluster while the walk's continue condition holds (no reachable
cycle), the chain walk terminates within `fat.length + 1` iterations, and
the resulting chain ends at the cluster where the loop stopped: an
out-of-range cluster, a cluster whose entry is EOC (that final cluster
included), or defensively a free (0) entry. -/
theorem c5_chain_walk_terminates_without_cycles (fat : List Nat) (start : Nat)
    (hnr : ∀ i, i < fat.length + 1 → ∀ j, j < fat.length + 1 → i ≠ j →
      (∀ k, k < max i j → okStepB fat (linkIter fat start k) = true) →
      linkIter fat start i ≠ linkIter fat start j) :
    ∃ chain, UpdTool.getClusterChain fat start (fat.length + 1) = some chain ∧
      ∃ last, chain.getLast? = some last ∧
        (fat.length ≤ last ∨ 0x0FFFFFF8 ≤ fat.getD last 0 ∨ fat.getD last 0 = 0) := by
  cases hres : UpdTool.getClusterChain fat start (fat.length + 1) with
  | some chain =>
    obtain ⟨last, hl, hcond⟩ :=
      chainAuxSome_last fat (fat.length + 1) start [start] chain rfl hres
    exact ⟨chain, rfl, last, hl, hcond⟩
  | none =>
    exfalso
    have hok := chainAuxNone_ok fat (fat.length + 1) start [start] hres
    have hlt : ∀ k, k ≤ fat.length → linkIter fat start k < fat.length := by
      intro k hk
      have := hok k (by omega)
      simp only [okStepB, Bool.and_eq_true, decide_eq_true_eq] at this
      exact this.1.1
    have hcard : Fintype.card (Fin fat.length) < Fintype.card (Fin (fat.length + 1)) := by
      simp
    obtain ⟨x, y, hxy, hfeq⟩ := Fintype.exists_ne_map_eq_of_card_lt
      (fun m : Fin (fat.length + 1) =>
        (⟨linkIter fat start m.1, hlt m.1 (Nat.lt_succ_iff.mp m.isLt)⟩ : Fin fat.length))
      hcard
    have hmax : ∀ k, k < max x.1 y.1 → okStepB fat (linkIter fat start k) = true := by
      intro k hk
      have hx := x.isLt
      have hy := y.isLt
      exact hok k (by omega)
    have hval : linkIter fat start x.1 = linkIter fat start y.1 :=
      congrArg Fin.val hfeq
    exact hnr x.1 x.isLt y.1 y.isLt (fun h => hxy (Fin.ext h)) hmax hval

/-- Witness for C5 (amended) on the acyclic FAT `c5fat` from cluster 2. -/
theorem c5_chain_walk_witness :
    (∀ i, i < c5fat.length + 1 → ∀ j, j < c5fat.length + 1 → i ≠ j →
      (∀ k, k < max i j → okStepB c5fat (linkIter c5fat 2 k) = true) →
      linkIter c5fat 2 i ≠ linkIter c5fat 2 j)
    ∧ (∃ chain, UpdTool.getClusterChain c5fat 2 (c5fat.length + 1) = some chain ∧
        ∃ last, chain.getLast? = some last ∧
          (c5fat.length ≤ last ∨ 0x0FFFFFF8 ≤ c5fat.getD last 0 ∨ c5fat.getD last 0 = 0)) :=
  ⟨by decide, c5_chain_walk_terminates_without_cycles c5fat 2 (by decide)⟩

/-! ### C4: directory iteration past the first EndOfDirectory marker -/

/-- C4: on `c4img`, the root directory chain is `[2, 3]` and cluster 2
begins with an EndOfDirectory record, yet `list_directory` returns the
record stored in cluster 3 — the `break` of the record loop leaves only the
inner loop, so records in clusters after the EndOfDirectory marker are read
and returned. -/
theorem c4_list_directory_reads_past_end_marker :
    UpdTool.parseFat32Bpb c4img = .ok c4bpb
    ∧ UpdTool.getClusterChain (UpdTool.readFat c4img c4bpb) 2 20 = some [2, 3]
    ∧ UpdTool.parseDirectoryEntry (UpdTool.readCluster c4img c4bpb 2) 0 = .endOfDir
    ∧ UpdTool.listDirectory c4img c4bpb 2 20 =
        some [⟨[72, 73, 68, 68, 69, 78, 32, 32, 84, 88, 84], 0x20, 5, 100⟩] := by
  refine ⟨rfl, by decide, by decide, by decide⟩

/-! ### C6: encode/decode roundtrip of the starting cluster -/

theorem padName_length (l : List Nat) : (padName l).length = 8 := by
  unfold padName
  simp only [List.length_append, List.length_take, List.length_replicate]
  omega

theorem padExt_length (l : List Nat) : (padExt l).length = 3 := by
  unfold padExt
  simp only [List.length_append, List.length_take, List.length_replicate]
  omega

theorem getD_append_left_len {l l' : List Nat} {n L : Nat} (h : l.length = L) (hn : n < L) :
    (l ++ l').getD n 0 = l.getD n 0 :=
  List.getD_append _ _ _ _ (by omega)

theorem getD_append_right_len {l l' : List Nat} {n L : Nat} (h : l.length = L) (hn : L ≤ n) :
    (l ++ l').getD n 0 = l'.getD (n - L) 0 := by
  rw [List.getD_append_right _ _ _ _ (by omega), h]

theorem le2_length (v : Nat) : (le2 v).length = 2 := rfl

theorem readLE16L_eq (l : List Nat) (off : Nat) :
    readLE16L l off = l.getD off 0 + 256 * l.getD (off + 1) 0 := rfl

/-- C6: encoding a directory entry with 32-bit starting cluster `K`
(`create_directory_entry`, high 16 bits at offset 20, low 16 at offset 26)
and decoding the record (`parse_directory_entry`) returns `K` exactly, for
every `K < 2^32`, whenever the record is a regular one (first name byte not
0x00/0xE5, attribute neither the LFN marker 0x0F nor volume-label). -/
theorem c6_start_cluster_roundtrip (name ext : List Nat) (attr cluster size : Nat)
    (h0 : (padName (pyUpper name)).getD 0 0 ≠ 0)
    (h0' : (padName (pyUpper name)).getD 0 0 ≠ 0xE5)
    (ha1 : attr ≠ 0x0F)
    (ha2 : attr &&& 0x08 = 0)
    (hc : cluster < 4294967296)
    (hs : size < 4294967296) :
    startClusterOf (UpdTool.parseDirectoryEntry
      (Builder.createDirectoryEntry name ext attr cluster size) 0) = some cluster := by
  have hN := padName_length (pyUpper name)
  have hX := padExt_length (pyUpper ext)
  have hE : Builder.createDirectoryEntry name ext attr cluster size =
      padName (pyUpper name) ++ (padExt (pyUpper ext) ++ ([attr] ++ ([0, 0] ++
        (le2 0 ++ (le2 0 ++ (le2 0 ++ (le2 (cluster >>> 16) ++ (le2 0 ++ (le2 0 ++
          (le2 (cluster &&& 0xFFFF) ++ le4 size)))))))))) := by
    unfold Builder.createDirectoryEntry
    simp only [List.append_assoc]
  set E := Builder.createDirectoryEntry name ext attr cluster size with hEdef
  have g0 : E.getD 0 0 = (padName (pyUpper name)).getD 0 0 := by
    rw [hE]
    exact getD_append_left_len hN (by norm_num)
  have g11 : E.getD 11 0 = attr := by
    rw [hE, getD_append_right_len hN (by norm_num),
      getD_append_right_len hX (by norm_num)]
    rfl
  have g20 : E.getD 20 0 = (cluster >>> 16) % 256 := by
    rw [hE, getD_append_right_len hN (by norm_num),
      getD_append_right_len hX (by norm_num),
      getD_append_right_len (List.length_singleton _) (by norm_num),
      getD_append_right_len (by rfl : ([0, 0] : List Nat).length = 2) (by norm_num),
      getD_append_right_len (le2_length 0) (by norm_num),
      getD_append_right_len (le2_length 0) (by norm_num),
      getD_append_right_len (le2_length 0) (by norm_num),
      getD_append_left_len (le2_length _) (by norm_num)]
    rfl
  have g21 : E.getD 21 0 = (cluster >>> 16) / 256 % 256 := by
    rw [hE, getD_append_right_len hN (by norm_num),
      getD_append_right_len hX (by norm_num),
      getD_append_right_len (List.length_singleton _) (by norm_num),
      getD_append_right_len (by rfl : ([0, 0] : List Nat).length = 2) (by norm_num),
      getD_append_right_len (le2_length 0) (by norm_num),
      getD_append_right_len (le2_length 0) (by norm_num),
      getD_append_right_len (le2_length 0) (by norm_num),
      getD_append_left_len (le2_length _) (by norm_num)]
    rfl
  have g26 : E.getD 26 0 = (cluster &&& 0xFFFF) % 256 := by
    rw [hE, getD_append_right_len hN (by norm_num),
      getD_append_right_len hX (by norm_num),
      getD_append_right_len (List.length_singleton _) (by norm_num),
      getD_append_right_len (by rfl : ([0, 0] : List Nat).length = 2) (by norm_num),
      getD_append_right_len (le2_length 0) (by norm_num),
      getD_append_right_len (le2_length 0) (by norm_num),
      getD_append_right_len (le2_length 0) (by norm_num),
      getD_append_right_len (le2_length _) (by norm_num),
      getD_append_right_len (le2_length 0) (by norm_num),
      getD_append_right_len (le2_length 0) (by norm_num),
      getD_append_left_len (le2_length _) (by norm_num)]
    rfl
  have g27 : E.getD 27 0 = (cluster &&& 0xFFFF) / 256 % 256 := by
    rw [hE, getD_append_right_len hN (by norm_num),
      getD_append_right_len hX (by norm_num),
      getD_append_right_len (List.length_singleton _) (by norm_num),
      getD_append_right_len (by rfl : ([0, 0] : List Nat).length = 2) (by norm_num),
      getD_append_right_len (le2_length 0) (by norm_num),
      getD_append_right_len (le2_length 0) (by norm_num),
      getD_append_right_len (le2_length 0) (by norm_num),
      getD_append_right_len (le2_length _) (by norm_num),
      getD_append_right_len (le2_length 0) (by norm_num),
      getD_append_right_len (le2_length 0) (by norm_num),
      getD_append_left_len (le2_length _) (by norm_num)]
    rfl
  unfold UpdTool.parseDirectoryEntry
  rw [show (0 : Nat) + 11 = 11 from rfl, show (0 : Nat) + 26 = 26 from rfl,
    show (0 : Nat) + 20 = 20 from rfl]
  rw [if_neg (by rw [g0]; exact h0), if_neg (by rw [g0]; exact h0'),
    if_neg (by rw [g11]; exact ha1), if_neg (by rw [g11]; simpa using ha2)]
  unfold startClusterOf
  rw [Option.some.injEq]
  show readLE16L E 26 ||| readLE16L E 20 <<< 16 = cluster
  rw [readLE16L_eq, readLE16L_eq]
  rw [show (26 : Nat) + 1 = 27 from rfl, show (20 : Nat) + 1 = 21 from rfl]
  rw [g26, g27, g20, g21]
  have hlow : (cluster &&& 0xFFFF) % 256 + 256 * ((cluster &&& 0xFFFF) / 256 % 256) =
      cluster &&& 65535 := by
    have hb : cluster &&& 65535 < 65536 := lt_of_le_of_lt Nat.and_le_right (by norm_num)
    omega
  have hhib : cluster >>> 16 < 65536 := by
    rw [Nat.shiftRight_eq_div_pow]
    norm_num
    omega
  have hhi : (cluster >>> 16) % 256 + 256 * ((cluster >>> 16) / 256 % 256) =
      cluster >>> 16 := by
    omega
  rw [hlow, hhi]
  rw [Nat.shiftRight_eq_div_pow, Nat.shiftLeft_eq,
    show (65535 : Nat) = 2 ^ 16 - 1 from by norm_num, Nat.and_pow_two_sub_one_eq_mod,
    Nat.or_comm, show cluster / 2 ^ 16 * 2 ^ 16 = 2 ^ 16 * (cluster / 2 ^ 16) from by ring,
    ← Nat.mul_add_lt_is_or (Nat.mod_lt _ (by norm_num)) _]
  exact Nat.div_add_mod cluster (2 ^ 16)

/-- Witness for C6: name `BOOTX64`, extension `EFI`, archive attribute,
starting cluster `0x54321` (nonzero high 16 bits), size 123. -/
theorem c6_start_cluster_roundtrip_witness :
    ((padName (pyUpper [66, 79, 79, 84, 88, 54, 52])).getD 0 0 ≠ 0
      ∧ (padName (pyUpper [66, 79, 79, 84, 88, 54, 52])).getD 0 0 ≠ 0xE5
      ∧ (0x20 : Nat) ≠ 0x0F ∧ (0x20 : Nat) &&& 0x08 = 0
      ∧ (0x54321 : Nat) < 4294967296 ∧ (123 : Nat) < 4294967296)
    ∧ startClusterOf (UpdTool.parseDirectoryEntry
        (Builder.createDirectoryEntry [66, 79, 79, 84, 88, 54, 52] [69, 70, 73]
          0x20 0x54321 123) 0) = some 0x54321 :=
  ⟨⟨by decide, by decide, by decide, by decide, by decide, by decide⟩,
   c6_start_cluster_roundtrip [66, 79, 79, 84, 88, 54, 52] [69, 70, 73] 0x20 0x54321 123
     (by decide) (by decide) (by decide) (by decide) (by decide) (by decide)⟩

/-! ### C7: the update path and oversized payloads -/

/-- The in-place overwrite loop ignores payload bytes beyond the chain's
capacity: writing `data` over a chain whose remaining capacity is
`cap < data.length` produces exactly the same image as writing
`data.take cap`. -/
theorem updateClustersAux_take (bpb : UpdTool.Bpb) (data : List Nat) (cap : Nat)
    (hcs : 0 < UpdTool.clusterSize bpb) (hcap : cap < data.length) :
    ∀ (chain : List Nat) (i : Nat) (img : Image),
      (i + chain.length) * UpdTool.clusterSize bpb = cap →
      UpdTool.updateClustersAux bpb data chain i img =
      UpdTool.updateClustersAux bpb (data.take cap) chain i img := by
  intro chain
  induction chain with
  | nil => intro i img _; rfl
  | cons c rest ih =>
    intro i img hinv
    simp only [UpdTool.updateClustersAux]
    simp only [List.length_cons] at hinv
    have hS' : (data.take cap).length = cap := by
      rw [List.length_take]
      omega
    have hmul : (i + (rest.length + 1)) * UpdTool.clusterSize bpb =
        i * UpdTool.clusterSize bpb + rest.length * UpdTool.clusterSize bpb +
        UpdTool.clusterSize bpb := by
      ring
    have hendd : min (i * UpdTool.clusterSize bpb + UpdTool.clusterSize bpb) data.length =
        i * UpdTool.clusterSize bpb + UpdTool.clusterSize bpb := by
      omega
    have hendd' : min (i * UpdTool.clusterSize bpb + UpdTool.clusterSize bpb)
        (data.take cap).length =
        i * UpdTool.clusterSize bpb + UpdTool.clusterSize bpb := by
      omega
    have hchunk : (fun k =>
        if k < min (i * UpdTool.clusterSize bpb + UpdTool.clusterSize bpb) data.length -
            i * UpdTool.clusterSize bpb
        then data.getD (i * UpdTool.clusterSize bpb + k) 0 else 0) =
        (fun k =>
        if k < min (i * UpdTool.clusterSize bpb + UpdTool.clusterSize bpb)
            (data.take cap).length - i * UpdTool.clusterSize bpb
        then (data.take cap).getD (i * UpdTool.clusterSize bpb + k) 0 else 0) := by
      funext k
      rw [hendd, hendd']
      by_cases hk : k < i * UpdTool.clusterSize bpb + UpdTool.clusterSize bpb -
          i * UpdTool.clusterSize bpb
      · rw [if_pos hk, if_pos hk]
        have hidx : i * UpdTool.clusterSize bpb + k < cap := by
          omega
        rw [List.getD_eq_getElem?_getD, List.getD_eq_getElem?_getD,
          List.getElem?_take_of_lt hidx]
      · rw [if_neg hk, if_neg hk]
    have hcond : ¬ (data.length ≤
        min (i * UpdTool.clusterSize bpb + UpdTool.clusterSize bpb) data.length) := by
      omega
    rw [if_neg hcond]
    by_cases hrest : rest = []
    · subst hrest
      have hinv1 : (i + 1) * UpdTool.clusterSize bpb = cap := by
        simpa using hinv
      have e1 : (i + 1) * UpdTool.clusterSize bpb =
          i * UpdTool.clusterSize bpb + UpdTool.clusterSize bpb := by
        ring
      have hcond' : (data.take cap).length ≤
          min (i * UpdTool.clusterSize bpb + UpdTool.clusterSize bpb)
            (data.take cap).length := by
        omega
      rw [if_pos hcond']
      exact congrArg (writeRegion img (UpdTool.clusterToOffset bpb c)
        (UpdTool.clusterSize bpb)) hchunk
    · have hr : 1 ≤ rest.length := by
        cases rest with
        | nil => exact absurd rfl hrest
        | cons _ _ => simp
      have hrcs : 1 * UpdTool.clusterSize bpb ≤ rest.length * UpdTool.clusterSize bpb :=
        Nat.mul_le_mul_right _ hr
      have hcond' : ¬ ((data.take cap).length ≤
          min (i * UpdTool.clusterSize bpb + UpdTool.clusterSize bpb)
            (data.take cap).length) := by
        omega
      rw [if_neg hcond', ← hchunk]
      have hinv' : (i + 1 + rest.length) * UpdTool.clusterSize bpb = cap := by
        rw [show i + 1 + rest.length = i + (rest.length + 1) from by omega]
        exact hinv
      exact ih (i + 1) _ hinv'

/-- C7 (amended): `update_file` never surfaces a truncation failure — it is
a total in-place overwrite whose result, when the payload exceeds the
chain's capacity, equals the result of updating with the payload silently
truncated to `chain.length * cluster_size` bytes. -/
theorem c7_update_truncates_silently (img : Image) (bpb : UpdTool.Bpb) (st : Nat)
    (data : List Nat) (fuel : Nat) (chain : List Nat)
    (hchain : UpdTool.getClusterChain (UpdTool.readFat img bpb) st fuel = some chain)
    (hcs : 0 < UpdTool.clusterSize bpb)
    (hcap : chain.length * UpdTool.clusterSize bpb < data.length) :
    UpdTool.updateFile img bpb st data fuel =
    UpdTool.updateFile img bpb st (data.take (chain.length * UpdTool.clusterSize bpb)) fuel := by
  unfold UpdTool.updateFile
  rw [hchain]
  dsimp only
  rw [Option.some.injEq]
  exact updateClustersAux_take bpb data _ hcs hcap chain 0 img (by ring_nf)

/-- Counterexample to C7 as stated: updating the one-cluster (512-byte
capacity) file at cluster 2 of `uimg` with 700 bytes completes as a success
— the model is total, mirroring that `update_file` raises nothing — and
produces exactly the image of updating with the first 512 bytes; the
188 excess bytes are dropped with no `TruncationLoss` surfaced. -/
theorem c7_counterexample_silent_truncation :
    UpdTool.getClusterChain (UpdTool.readFat uimg ubpb) 2 10 = some [2]
    ∧ 1 * UpdTool.clusterSize ubpb < udata700.length
    ∧ (UpdTool.updateFile uimg ubpb 2 udata700 10).isSome = true
    ∧ UpdTool.updateFile uimg ubpb 2 udata700 10 =
        UpdTool.updateFile uimg ubpb 2 (udata700.take 512) 10 := by
  refine ⟨by decide, by decide, by decide, ?_⟩
  have h := c7_update_truncates_silently uimg ubpb 2 udata700 10 [2]
    (by decide) (by decide) (by decide)
  rw [show ([2] : List Nat).length * UpdTool.clusterSize ubpb = 512 from by decide] at h
  exact h

/-- Witness for C7 (amended), same instance as the counterexample. -/
theorem c7_update_truncates_silently_witness :
    (UpdTool.getClusterChain (UpdTool.readFat uimg ubpb) 2 10 = some [2]
      ∧ 0 < UpdTool.clusterSize ubpb
      ∧ ([2] : List Nat).length * UpdTool.clusterSize ubpb < udata700.length)
    ∧ UpdTool.updateFile uimg ubpb 2 udata700 10 =
        UpdTool.updateFile uimg ubpb 2
          (udata700.take (([2] : List Nat).length * UpdTool.clusterSize ubpb)) 10 :=
  ⟨⟨by decide, by decide, by decide⟩,
   c7_update_truncates_silently uimg ubpb 2 udata700 10 [2] (by decide) (by decide) (by decide)⟩

/-! ### C10: absolute-offset addressing of the update tool -/

/-- C10: the update tool accepts any image whose bytes 510–511 are
`0x55 0xAA` (and only those), and resolves clusters relative to absolute
offset 0: its `cluster_to_offset` agrees with the partition-aware offset of
a volume starting at sector `volStart` exactly when `volStart = 0`.  The
copy tool, by contrast, takes the partition start LBA from the MBR entry
when the partition type byte is 0xEF, and defaults to 2048 otherwise. -/
theorem c10_update_tool_absolute_offsets :
    (∀ img : Image, (UpdTool.parseFat32Bpb img).isOk = true ↔
      (img 510 = 0x55 ∧ img 511 = 0xAA))
    ∧ (∀ img : Image, img 450 = 0xEF → CopyTool.espStart img = readLE32 img 454)
    ∧ (∀ img : Image, img 450 ≠ 0xEF → CopyTool.espStart img = 2048)
    ∧ (∀ (bpb : UpdTool.Bpb) (c volStart : Nat), 0 < bpb.bytesPerSector →
        (UpdTool.clusterToOffset bpb c = specAbsoluteClusterOffset volStart bpb c ↔
          volStart = 0)) := by
  refine ⟨?_, ?_, ?_, ?_⟩
  · intro img
    unfold UpdTool.parseFat32Bpb
    by_cases h : img 510 = 0x55 ∧ img 511 = 0xAA
    · rw [if_pos h]
      exact ⟨fun _ => h, fun _ => rfl⟩
    · rw [if_neg h]
      constructor
      · intro habs
        exact absurd habs (by decide)
      · intro hc
        exact absurd hc h
  · intro img h
    unfold CopyTool.espStart
    rw [if_pos h]
  · intro img h
    unfold CopyTool.espStart
    rw [if_neg h]
  · intro bpb c volStart hb
    unfold UpdTool.clusterToOffset specAbsoluteClusterOffset
    constructor
    · intro h
      have e2 : (volStart + (bpb.reservedSectors + bpb.numFats * bpb.sectorsPerFat) +
            (c - 2) * bpb.sectorsPerCluster) * bpb.bytesPerSector =
          volStart * bpb.bytesPerSector +
          (bpb.reservedSectors + bpb.numFats * bpb.sectorsPerFat +
            (c - 2) * bpb.sectorsPerCluster) * bpb.bytesPerSector := by
        ring
      have hz : volStart * bpb.bytesPerSector = 0 := by
        omega
      rcases Nat.mul_eq_zero.mp hz with h0 | h0
      · exact h0
      · omega
    · intro h
      subst h
      rw [Nat.zero_add]

/-- Witness for C10 on `uimg` (volume at byte 0), `c8img` (MBR with type
byte 0xEF and ESP start LBA 1), and `ubpb` with a nonzero partition start. -/
theorem c10_update_tool_absolute_offsets_witness :
    ((UpdTool.parseFat32Bpb uimg).isOk = true ↔ (uimg 510 = 0x55 ∧ uimg 511 = 0xAA))
    ∧ (c8img 450 = 0xEF ∧ CopyTool.espStart c8img = readLE32 c8img 454)
    ∧ (uimg 450 ≠ 0xEF ∧ CopyTool.espStart uimg = 2048)
    ∧ (0 < ubpb.bytesPerSector ∧
        (UpdTool.clusterToOffset ubpb 2 = specAbsoluteClusterOffset 1 ubpb 2 ↔ (1 : Nat) = 0)) :=
  ⟨c10_update_tool_absolute_offsets.1 uimg,
   ⟨by decide, c10_update_tool_absolute_offsets.2.1 c8img (by decide)⟩,
   ⟨by decide, c10_update_tool_absolute_offsets.2.2.1 uimg (by decide)⟩,
   ⟨by decide, c10_update_tool_absolute_offsets.2.2.2 ubpb 2 1 (by decide)⟩⟩

end WebbOS
